import Mathlib

/-!
# tribe-calendar: slot generation and booking admission

A shallow embedding of the scheduling core of the repository:

* `src/utils/validation.js`            : `doTimeRangesOverlap`, `isValidTimeFormat`,
  `isValidTimeRange`
* `src/controllers/bookingController.js`      : `createBooking` and its availability check,
  `getBookings`, `updateBookingStatus`, `rescheduleBooking`, `cancelBooking`
* `src/controllers/availabilityController.js` : `getAvailableTimeSlots` and its slot loop
* `src/models/Availability.js`         : the validators, `createAvailability`,
  `validateAvailability`
* `src/models/Booking.js`              : the validators, `validateBooking`, `createBooking`
* `src/models/EventType.js`            : the validators, `validateEventType`,
  `createEventType`

Module bindings.  `src/models/Booking.js` declares `BOOKING_STATUS` and `BookingSchema` as
constants of its own and never assigns `module.exports`.  Inside that file the table and the
functions are what they are declared to be (`BOOKING_STATUS.PENDING`, `validateBooking`,
`BookingSchema.createBooking` below).  In `src/controllers/bookingController.js`, which gets
them through `require('../models/Booking')`, `BookingSchema` is the empty object and
`BOOKING_STATUS` is `undefined` (`bookingController.BookingSchema`,
`bookingController.BOOKING_STATUS` below); the handlers are embedded with these bindings, a
thrown `TypeError` ending in the `catch` block of the handler, which answers with HTTP 500.

The document store is the collaborator the handlers talk to: a collection is the list of its
documents, `doc(id).get()` finds the document with that id, `doc(id).update(patch)` replaces
the properties the patch names, and a query keeps the documents that satisfy its `where`
clauses.

Instants.  Every `moment(...)` value the embedded code compares is represented by its
epoch value in milliseconds, an `Int`.  `isBefore`, `isAfter`, `isSameOrBefore` and
`isSameOrAfter` are `<`, `>`, `≤` and `≥` on that value, and `add(n, 'minutes')` /
`subtract(n, 'minutes')` add / subtract `n * 60000`.
-/

namespace TribeCalendar

/-! ## Data model -/

/-- Milliseconds in one minute: the unit of `moment.add(n, 'minutes')`. -/
def msPerMinute : Int := 60000

/-- The table `BOOKING_STATUS` of `src/models/Booking.js`, value of `PENDING`. -/
def BOOKING_STATUS.PENDING : String := "pending"

/-- The table `BOOKING_STATUS` of `src/models/Booking.js`, value of `CONFIRMED`. -/
def BOOKING_STATUS.CONFIRMED : String := "confirmed"

/-- The table `BOOKING_STATUS` of `src/models/Booking.js`, value of `CANCELLED`. -/
def BOOKING_STATUS.CANCELLED : String := "cancelled"

/-- The table `BOOKING_STATUS` of `src/models/Booking.js`, value of `COMPLETED`. -/
def BOOKING_STATUS.COMPLETED : String := "completed"

/-- The table `BOOKING_STATUS` of `src/models/Booking.js`, value of `NO_SHOW`. -/
def BOOKING_STATUS.NO_SHOW : String := "no-show"

/-- The shape of the table `BOOKING_STATUS`, as a module that holds the table as one value
reads it. -/
structure StatusTable where
  PENDING : String
  CONFIRMED : String
  CANCELLED : String
  COMPLETED : String
  NO_SHOW : String
  deriving DecidableEq, Repr

/-- The array `Object.values(table)` of a status table. -/
def StatusTable.values (table : StatusTable) : List String :=
  [table.PENDING, table.CONFIRMED, table.CANCELLED, table.COMPLETED, table.NO_SHOW]

/-- The binding `const { BOOKING_STATUS } = BookingSchema` of
`src/controllers/bookingController.js` (line 14), where `BookingSchema` is
`require('../models/Booking')` (line 2).  `src/models/Booking.js` declares `BOOKING_STATUS`
and `BookingSchema` as constants of its own and never assigns `module.exports`, so `require`
returns the empty object and the destructured `BOOKING_STATUS` is `undefined`: `none`.
Reading a property of it (`BOOKING_STATUS.PENDING`) and `Object.values(BOOKING_STATUS)` throw
a `TypeError`; every use stands in the `try` block of a handler, whose `catch` block answers
with HTTP 500. -/
def bookingController.BOOKING_STATUS : Option StatusTable := none

/-- A scalar value of a JSON request body (arrays and objects are left out).  `number`
carries an integer-valued number below `10 ^ 21` in absolute value, the range in which
JavaScript prints a number in plain decimal; a number with a fraction reaches `parseInt` as
the text `String(value)` and is covered by the `text` values.  An absent property
(`undefined`) is `none` of `Option JsValue`. -/
inductive JsValue where
  | null
  | bool (b : Bool)
  | number (n : Int)
  | text (s : String)
  deriving DecidableEq, Repr

/-- JavaScript truthiness of a present value. -/
def JsValue.truthy : JsValue → Bool
  | JsValue.null => false
  | JsValue.bool b => b
  | JsValue.number n => n != 0
  | JsValue.text s => s != ""

/-- JavaScript truthiness of a property that may be absent. -/
def truthyValue : Option JsValue → Bool
  | none => false
  | some v => v.truthy

/-- A booking document of the `bookings` collection, reduced to the fields the
availability checks read.  `startTime` and `endTime` are the instants
`moment(booking.startTime)` and `moment(booking.endTime)`. -/
structure Booking where
  id : String
  userId : String
  startTime : Int
  endTime : Int
  status : String
  deriving DecidableEq, Repr

/-! ## `src/utils/validation.js` -/

/-- The function `doTimeRangesOverlap(start1, end1, start2, end2)`:
the three-way disjunction of the source, on instants. -/
def doTimeRangesOverlap (start1 end1 start2 end2 : Int) : Bool :=
  let s1 := start1
  let e1 := end1
  let s2 := start2
  let e2 := end2
  (decide (s1 ≥ s2) && decide (s1 < e2)) ||
  (decide (e1 > s2) && decide (e1 ≤ e2)) ||
  (decide (s1 < s2) && decide (e1 > e2))

/-! ## `src/controllers/bookingController.js`: `createBooking`, availability check -/

/-- The Firestore query of `createBooking`:
`bookingsCollection.where('userId', '==', userId)
   .where('status', 'in', [BOOKING_STATUS.CONFIRMED, BOOKING_STATUS.PENDING])`.
The argument of the second `where` reads two properties of the controller's
`BOOKING_STATUS`; the result is `none` where that throws. -/
def overlappingBookingsSnapshot (bookingsCollection : List Booking) (userId : String) :
    Option (List Booking) :=
  match bookingController.BOOKING_STATUS with
  | none => none
  | some table =>
    some
      (bookingsCollection.filter fun doc =>
        doc.userId == userId && (doc.status == table.CONFIRMED || doc.status == table.PENDING))

/-- The condition of the `if` inside `overlappingBookingsSnapshot.forEach` of `createBooking`. -/
def createBookingConflict (startDateTime endDateTime : Int) (booking : Booking) : Bool :=
  let bookingStart := booking.startTime
  let bookingEnd := booking.endTime
  (decide (startDateTime ≥ bookingStart) && decide (startDateTime < bookingEnd)) ||
  (decide (endDateTime > bookingStart) && decide (endDateTime ≤ bookingEnd)) ||
  (decide (startDateTime < bookingStart) && decide (endDateTime > bookingEnd))

/-- The array `isOverlapping` that `createBooking` fills in its `forEach`:
the documents of the snapshot, in snapshot order, that satisfy the condition. -/
def createBookingIsOverlapping (startDateTime endDateTime : Int) (snapshot : List Booking) :
    List Booking :=
  snapshot.foldl
    (fun isOverlapping booking =>
      if createBookingConflict startDateTime endDateTime booking then
        isOverlapping ++ [booking]
      else isOverlapping)
    []

/-- Outcome of the availability check of `createBooking`. -/
inductive Admission where
  /-- The check passes and `createBooking` goes on to create the booking. -/
  | accept
  /-- HTTP 400, `El horario solicitado ya está reservado`. -/
  | slotTaken
  /-- A `TypeError` is thrown inside the check; the `catch` block of the handler answers
  with HTTP 500. -/
  | throws
  deriving DecidableEq, Repr

/-- The decision `isOverlapping.length > 0` of `createBooking` (source lines 96 to 116) on a
snapshot the query has returned: collect the overlapping documents and refuse when the
collection is not empty. -/
def createBookingDecision (startDateTime endDateTime : Int) (snapshot : List Booking) :
    Admission :=
  let isOverlapping := createBookingIsOverlapping startDateTime endDateTime snapshot
  if isOverlapping.length > 0 then Admission.slotTaken else Admission.accept

/-- The availability check of `createBooking` (source lines 86 to 116): query the host's
confirmed and pending bookings, collect the overlapping ones, and refuse when the
collection is not empty.  The query comes first, and it throws (see
`overlappingBookingsSnapshot`). -/
def createBookingAvailability (bookingsCollection : List Booking) (userId : String)
    (startTime endTime : Int) : Admission :=
  let startDateTime := startTime
  let endDateTime := endTime
  match overlappingBookingsSnapshot bookingsCollection userId with
  | none => Admission.throws
  | some snapshot => createBookingDecision startDateTime endDateTime snapshot

/-! ## `src/controllers/availabilityController.js`: `getAvailableTimeSlots` -/

/-- An element of the response array `slots`: `{ start, end }`, each the instant that
`slotStart.format()` / `slotEnd.format()` prints. -/
structure Slot where
  start : Int
  end_ : Int
  deriving DecidableEq, Repr

/-- The callback of `existingBookings.some(...)` in the slot loop: the booking is widened
by `bufferBefore` minutes before and `bufferAfter` minutes after, and compared with the
candidate `[slotStart, slotEnd]` by the three-way disjunction of the source. -/
def slotConflict (bufferBefore bufferAfter slotStart slotEnd : Int) (booking : Booking) : Bool :=
  let bookingStart := booking.startTime
  let bookingEnd := booking.endTime
  let effectiveBookingStart := bookingStart - bufferBefore * msPerMinute
  let effectiveBookingEnd := bookingEnd + bufferAfter * msPerMinute
  (decide (slotStart ≥ effectiveBookingStart) && decide (slotStart < effectiveBookingEnd)) ||
  (decide (slotEnd > effectiveBookingStart) && decide (slotEnd ≤ effectiveBookingEnd)) ||
  (decide (slotStart < effectiveBookingStart) && decide (slotEnd > effectiveBookingEnd))

/-- The `while (slotStart.isBefore(endTime))` loop of `getAvailableTimeSlots` (source lines
225 to 260), as a function of the loop state `(slots, slotStart)`: it returns the array
`slots` as it stands when the loop is left, by the loop condition or by `break`. -/
def slotLoop (endTime duration bufferBefore bufferAfter : Int) (existingBookings : List Booking)
    (slots : List Slot) (slotStart : Int) : List Slot :=
  if slotStart < endTime then
    let slotEnd := slotStart + duration * msPerMinute
    if slotEnd > endTime then
      slots
    else
      let isOverlapping :=
        existingBookings.any (slotConflict bufferBefore bufferAfter slotStart slotEnd)
      let slots := if !isOverlapping then slots ++ [{ start := slotStart, end_ := slotEnd }]
                   else slots
      slotLoop endTime duration bufferBefore bufferAfter existingBookings slots
        (slotStart + 15 * msPerMinute)
  else
    slots
termination_by (endTime - slotStart).toNat
decreasing_by
  simp only [msPerMinute]
  omega

/-- Slot generation of `getAvailableTimeSlots` (source lines 221 to 260) for a working window
`[startTime, endTime]`: `slots = []`, `slotStart = startTime.clone()`, then the loop. -/
def generateSlots (startTime endTime duration bufferBefore bufferAfter : Int)
    (existingBookings : List Booking) : List Slot :=
  slotLoop endTime duration bufferBefore bufferAfter existingBookings [] startTime

/-- One weekday entry of `availability.schedule`.  A stored entry may lack any of its
fields (`updateAvailability` writes the request body as it came), so each is optional;
`isWorking` unset is JavaScript `undefined`. -/
structure DaySchedule where
  start : Option String
  end_ : Option String
  isWorking : Option Bool
  deriving DecidableEq, Repr

/-- The object `availability.schedule`: one optional entry per name of `DAYS_OF_WEEK`. -/
structure Schedule where
  monday : Option DaySchedule
  tuesday : Option DaySchedule
  wednesday : Option DaySchedule
  thursday : Option DaySchedule
  friday : Option DaySchedule
  saturday : Option DaySchedule
  sunday : Option DaySchedule
  deriving DecidableEq, Repr

/-- Property access `schedule[dayOfWeek]`: `undefined` (here `none`) for any key that is
not a stored weekday name. -/
def Schedule.get (schedule : Schedule) (dayOfWeek : String) : Option DaySchedule :=
  if dayOfWeek = "monday" then schedule.monday
  else if dayOfWeek = "tuesday" then schedule.tuesday
  else if dayOfWeek = "wednesday" then schedule.wednesday
  else if dayOfWeek = "thursday" then schedule.thursday
  else if dayOfWeek = "friday" then schedule.friday
  else if dayOfWeek = "saturday" then schedule.saturday
  else if dayOfWeek = "sunday" then schedule.sunday
  else none

/-- A date-specific entry of `availability.exceptions`.  The source stores the array and
never reads it; the entry shape is the one of a weekday entry plus its date. -/
structure DateException where
  date : String
  day : DaySchedule
  deriving DecidableEq, Repr

/-- An availability document, without the generated `id` and the timestamps. -/
structure Availability where
  userId : String
  schedule : Schedule
  exceptions : List DateException
  deriving DecidableEq, Repr

/-- The constant `DEFAULT_AVAILABILITY` of `src/models/Availability.js`. -/
def DEFAULT_AVAILABILITY : Schedule where
  monday := some { start := some "09:00", end_ := some "17:00", isWorking := some true }
  tuesday := some { start := some "09:00", end_ := some "17:00", isWorking := some true }
  wednesday := some { start := some "09:00", end_ := some "17:00", isWorking := some true }
  thursday := some { start := some "09:00", end_ := some "17:00", isWorking := some true }
  friday := some { start := some "09:00", end_ := some "17:00", isWorking := some true }
  saturday := some { start := some "09:00", end_ := some "13:00", isWorking := some false }
  sunday := some { start := some "09:00", end_ := some "13:00", isWorking := some false }

/-- The call `AvailabilitySchema.createAvailability({ userId })` made by
`getAvailableTimeSlots` when the host has no availability document: no `schedule` and no
`exceptions` are supplied, so the schedule is a copy of `DEFAULT_AVAILABILITY` and the
exceptions are `[]`. -/
def createAvailabilityDefault (userId : String) : Availability :=
  { userId := userId, schedule := DEFAULT_AVAILABILITY, exceptions := [] }

/-- An event-type document, reduced to the fields `getAvailableTimeSlots` and
`createBooking` read.  `requiresConfirmation` is the stored value, whatever its type
(`createEventType` stores what the request carried); `createBooking` tests it for
truthiness. -/
structure EventType where
  userId : String
  duration : Int
  bufferBefore : Option Int
  bufferAfter : Option Int
  timezone : Option String
  requiresConfirmation : Option JsValue := none
  deriving DecidableEq, Repr

/-- The document store as `getAvailableTimeSlots` sees it: the `eventTypes` collection by
document id, and the `availability` and `bookings` collections. -/
structure Store where
  eventTypes : List (String × EventType)
  availability : List Availability
  bookings : List Booking

/-- The operations of moment-timezone that `getAvailableTimeSlots` calls on the request
date; they belong to the library and are parameters of the embedding. -/
structure Calendar where
  /-- The value `moment(date).tz(tz).format('dddd').toLowerCase()`. -/
  weekdayName : String → String → String
  /-- The value `moment.tz(text, tz)`: `none` for an invalid moment. -/
  momentTz : String → String → Option Int
  /-- The value `moment(date).startOf('day')`. -/
  startOfDay : String → Int
  /-- The value `moment(date).endOf('day')`. -/
  endOfDay : String → Int

/-- JavaScript truthiness of an optional string: `undefined` and `''` are falsy. -/
def truthyString : Option String → Bool
  | none => false
  | some s => s != ""

/-- The expression `a || b` on optional strings. -/
def orString (a b : Option String) : Option String :=
  if truthyString a then a else b

/-- The response of `getAvailableTimeSlots`. -/
inductive SlotsResponse where
  /-- HTTP 200 with `data: slots`. -/
  | ok (data : List Slot)
  /-- HTTP 400, `Debe proporcionar eventTypeId y date`. -/
  | badRequest
  /-- HTTP 404, `Tipo de evento no encontrado`. -/
  | notFound
  deriving DecidableEq, Repr

/-- The query for the day's bookings in `getAvailableTimeSlots`:
`where('userId', '==', userId).where('startTime', '>=', dayStart)
  .where('startTime', '<=', dayEnd).where('status', 'in', ['confirmed', 'pending'])`. -/
def dayBookings (bookingsCollection : List Booking) (userId : String) (dayStart dayEnd : Int) :
    List Booking :=
  bookingsCollection.filter fun doc =>
    doc.userId == userId && decide (doc.startTime ≥ dayStart) && decide (doc.startTime ≤ dayEnd) &&
      (doc.status == "confirmed" || doc.status == "pending")

/-- The value `timezone || eventType.timezone || 'UTC'` of `getAvailableTimeSlots`. -/
def userTimezoneOf (timezone : Option String) (eventType : EventType) : String :=
  (orString (orString timezone eventType.timezone) (some "UTC")).getD "UTC"

/-- The availability `getAvailableTimeSlots` works with: the first document of
`availabilityCollection.where('userId', '==', userId).limit(1)`, or the default one when the
snapshot is empty. -/
def hostAvailability (availabilityCollection : List Availability) (userId : String) :
    Availability :=
  match availabilityCollection.find? (fun doc => doc.userId == userId) with
  | none => createAvailabilityDefault userId
  | some doc => doc

/-- The handler `getAvailableTimeSlots` of `src/controllers/availabilityController.js`.
An invalid `startTime` or `endTime` makes `slotStart.isBefore(endTime)` false, so the loop
body never runs and `slots` stays empty. -/
def getAvailableTimeSlots (cal : Calendar) (db : Store)
    (eventTypeId date timezone : Option String) : SlotsResponse :=
  if !truthyString eventTypeId || !truthyString date then
    SlotsResponse.badRequest
  else
    let date := date.getD ""
    match db.eventTypes.lookup (eventTypeId.getD "") with
    | none => SlotsResponse.notFound
    | some eventType =>
      let userId := eventType.userId
      let duration := eventType.duration
      let bufferBefore := eventType.bufferBefore.getD 0
      let bufferAfter := eventType.bufferAfter.getD 0
      let userTimezone := userTimezoneOf timezone eventType
      let availability := hostAvailability db.availability userId
      let dayOfWeek := cal.weekdayName date userTimezone
      match availability.schedule.get dayOfWeek with
      | none => SlotsResponse.ok []
      | some daySchedule =>
        if daySchedule.isWorking != some true then
          SlotsResponse.ok []
        else
          let startTime :=
            cal.momentTz (date ++ "T" ++ daySchedule.start.getD "undefined") userTimezone
          let endTime :=
            cal.momentTz (date ++ "T" ++ daySchedule.end_.getD "undefined") userTimezone
          let dayStart := cal.startOfDay date
          let dayEnd := cal.endOfDay date
          let existingBookings := dayBookings db.bookings userId dayStart dayEnd
          match startTime, endTime with
          | some startTime, some endTime =>
            SlotsResponse.ok
              (generateSlots startTime endTime duration bufferBefore bufferAfter existingBookings)
          | _, _ => SlotsResponse.ok []

/-! ## `src/models/Availability.js` -/

/-- The array `DAYS_OF_WEEK`. -/
def DAYS_OF_WEEK : List String :=
  ["monday", "tuesday", "wednesday", "thursday", "friday", "saturday", "sunday"]

/-- The test `/^([01]\d|2[0-3]):([0-5]\d)$/.test(time)`, which is `isValidTimeFormat` of
`src/utils/validation.js` and the regular expression of `validators.timeFormat`: exactly
five characters, hours `00` to `23`, a colon, minutes `00` to `59`. -/
def isValidTimeFormat (time : String) : Bool :=
  match time.toList with
  | [h1, h2, colon, m1, m2] =>
    (((h1 == '0' || h1 == '1') && h2.isDigit) ||
        (h1 == '2' && (h2 == '0' || h2 == '1' || h2 == '2' || h2 == '3'))) &&
      colon == ':' &&
      (m1 == '0' || m1 == '1' || m1 == '2' || m1 == '3' || m1 == '4' || m1 == '5') &&
      m2.isDigit
  | _ => false

/-- The value of a decimal digit character. -/
def digitValue (c : Char) : Int :=
  (c.toNat : Int) - ('0'.toNat : Int)

/-- Minutes since midnight of a time written `HH:MM`. -/
def minutesOfDay (time : String) : Int :=
  match time.toList with
  | [h1, h2, _, m1, m2] =>
    (digitValue h1 * 10 + digitValue h2) * 60 + (digitValue m1 * 10 + digitValue m2)
  | _ => 0

/-- The value `moment(time, 'HH:mm')`, as minutes since the midnight the library anchors the
time to, `none` for an invalid moment.  A text in the exact `HH:MM` form parses to its hour
and minute; what the forgiving parser of the library makes of any other text is the
parameter `lenient`. -/
def momentHHmm (lenient : String → Option Int) (time : String) : Option Int :=
  if isValidTimeFormat time then some (minutesOfDay time) else lenient time

/-- The validator `AvailabilitySchema.validators.timeFormat`; the result is the error
message, `none` for `null`. -/
def AvailabilitySchema.timeFormat (value : Option String) : Option String :=
  if !truthyString value then some "La hora es requerida"
  else if !isValidTimeFormat (value.getD "") then
    some "Formato de hora inválido. Use HH:MM (24 horas)"
  else none

/-- The validator `AvailabilitySchema.validators.timeRange`. -/
def AvailabilitySchema.timeRange (lenient : String → Option Int) (start end_ : Option String) :
    Option String :=
  if !truthyString start || !truthyString end_ then some "Ambas horas son requeridas"
  else
    let startTime := momentHHmm lenient (start.getD "")
    let endTime := momentHHmm lenient (end_.getD "")
    match startTime, endTime with
    | some startTime, some endTime =>
      if startTime ≥ endTime then some "La hora de inicio debe ser anterior a la hora de fin"
      else none
    | _, _ => some "Formato de hora inválido"

/-- The validator `AvailabilitySchema.validators.daySchedule`, for an entry that is present
(the source's `!day` test is false for every object).  `day.hasOwnProperty('isWorking')` is
`day.isWorking.isSome`. -/
def AvailabilitySchema.daySchedule (lenient : String → Option Int) (day : DaySchedule) :
    Option String :=
  if day.isWorking.isSome && !(day.isWorking == some true) then none
  else
    match AvailabilitySchema.timeFormat day.start with
    | some startError => some startError
    | none =>
      match AvailabilitySchema.timeFormat day.end_ with
      | some endError => some endError
      | none => AvailabilitySchema.timeRange lenient day.start day.end_

/-- The argument of `createAvailability` and `validateAvailability`: `userId` is always set
by the controllers from the authenticated user, `schedule` and `exceptions` come from the
request body and may be absent. -/
structure AvailabilityData where
  userId : String
  schedule : Option Schedule
  exceptions : Option (List DateException)
  deriving DecidableEq, Repr

/-- The object spread `{ ...scheduleData[day], ...availabilityData.schedule[day] }`: every
property the request entry has replaces the one of the default entry. -/
def spreadDay (base input : DaySchedule) : DaySchedule :=
  { start := match input.start with
      | some v => some v
      | none => base.start
    end_ := match input.end_ with
      | some v => some v
      | none => base.end_
    isWorking := match input.isWorking with
      | some v => some v
      | none => base.isWorking }

/-- One step of the `DAYS_OF_WEEK.forEach` of `createAvailability`: the entry of
`scheduleData` for a day, given the entry of the request for that day. -/
def mergeDay (scheduleDataDay requestDay : Option DaySchedule) : Option DaySchedule :=
  match requestDay with
  | none => scheduleDataDay
  | some input =>
    match scheduleDataDay with
    | some base => some (spreadDay base input)
    | none => some input

/-- The function `AvailabilitySchema.createAvailability`, without the generated `id` and the
timestamps.  The `forEach` over the seven names of `DAYS_OF_WEEK` is written out. -/
def createAvailability (availabilityData : AvailabilityData) : Availability :=
  let scheduleData : Schedule :=
    match availabilityData.schedule with
    | none => DEFAULT_AVAILABILITY
    | some schedule =>
      { monday := mergeDay DEFAULT_AVAILABILITY.monday schedule.monday
        tuesday := mergeDay DEFAULT_AVAILABILITY.tuesday schedule.tuesday
        wednesday := mergeDay DEFAULT_AVAILABILITY.wednesday schedule.wednesday
        thursday := mergeDay DEFAULT_AVAILABILITY.thursday schedule.thursday
        friday := mergeDay DEFAULT_AVAILABILITY.friday schedule.friday
        saturday := mergeDay DEFAULT_AVAILABILITY.saturday schedule.saturday
        sunday := mergeDay DEFAULT_AVAILABILITY.sunday schedule.sunday }
  { userId := availabilityData.userId
    schedule := scheduleData
    exceptions := availabilityData.exceptions.getD [] }

/-- The object `errors` of `validateAvailability`: the message for `userId`, and
`errors.schedule`, present only when some day has an error, as the list of the days in error
with their messages, in the order of `DAYS_OF_WEEK`. -/
structure AvailabilityErrors where
  userId : Option String
  schedule : Option (List (String × String))
  deriving DecidableEq, Repr

/-- The result `{ isValid, errors }` of `validateAvailability`. -/
structure AvailabilityValidation where
  isValid : Bool
  errors : AvailabilityErrors
  deriving DecidableEq, Repr

/-- The object `scheduleErrors` that `validateAvailability` fills in its
`DAYS_OF_WEEK.forEach`. -/
def scheduleErrorsOf (lenient : String → Option Int) (schedule : Schedule) :
    List (String × String) :=
  DAYS_OF_WEEK.filterMap fun day =>
    match schedule.get day with
    | none => none
    | some entry =>
      match AvailabilitySchema.daySchedule lenient entry with
      | some dayError => some (day, dayError)
      | none => none

/-- The function `AvailabilitySchema.validateAvailability`. -/
def validateAvailability (lenient : String → Option Int) (availabilityData : AvailabilityData) :
    AvailabilityValidation :=
  let userIdError : Option String :=
    if availabilityData.userId == "" then some "El campo userId es requerido" else none
  let scheduleError : Option (List (String × String)) :=
    match availabilityData.schedule with
    | none => none
    | some schedule =>
      let scheduleErrors := scheduleErrorsOf lenient schedule
      if scheduleErrors.length > 0 then some scheduleErrors else none
  { isValid := userIdError.isNone && scheduleError.isNone
    errors := { userId := userIdError, schedule := scheduleError } }

/-! ## `src/models/EventType.js` -/

/-- The characters `parseInt` skips at the start of its argument (white space and line
terminators of the language). -/
def isJsWhitespace (c : Char) : Bool :=
  c.toNat == 0x09 || c.toNat == 0x0A || c.toNat == 0x0B || c.toNat == 0x0C ||
  c.toNat == 0x0D || c.toNat == 0x20 || c.toNat == 0xA0 || c.toNat == 0x1680 ||
  (decide (0x2000 ≤ c.toNat) && decide (c.toNat ≤ 0x200A)) || c.toNat == 0x2028 ||
  c.toNat == 0x2029 || c.toNat == 0x202F || c.toNat == 0x205F || c.toNat == 0x3000 ||
  c.toNat == 0xFEFF

/-- The value of a character as a digit of the given radix, `none` when it is not one. -/
def radixDigit (radix : Nat) (c : Char) : Option Nat :=
  let v : Option Nat :=
    if c.isDigit then some (c.toNat - '0'.toNat)
    else if decide ('a' ≤ c) && decide (c ≤ 'z') then some (c.toNat - 'a'.toNat + 10)
    else if decide ('A' ≤ c) && decide (c ≤ 'Z') then some (c.toNat - 'A'.toNat + 10)
    else none
  match v with
  | some d => if d < radix then some d else none
  | none => none

/-- The longest run of digits of the radix at the head of the characters, read as a
number; the second component tells whether the run is non-empty. -/
def readDigits (radix : Nat) : List Char → Nat → Bool → Nat × Bool
  | [], acc, seen => (acc, seen)
  | c :: rest, acc, seen =>
    match radixDigit radix c with
    | some d => readDigits radix rest (acc * radix + d) true
    | none => (acc, seen)

/-- The call `parseInt(text)` with no radix: leading white space is skipped, a sign is read,
a prefix `0x` or `0X` selects radix 16, and the longest run of digits is the result;
`none` is `NaN`. -/
def parseIntText (text : String) : Option Int :=
  let trimmed := text.toList.dropWhile isJsWhitespace
  let (negative, unsigned) :=
    match trimmed with
    | '-' :: rest => (true, rest)
    | '+' :: rest => (false, rest)
    | rest => (false, rest)
  let (radix, digits) :=
    match unsigned with
    | '0' :: 'x' :: rest => (16, rest)
    | '0' :: 'X' :: rest => (16, rest)
    | rest => (10, rest)
  match readDigits radix digits 0 false with
  | (value, true) => some (if negative then -(value : Int) else (value : Int))
  | (_, false) => none

/-- The call `parseInt(value)`: the value is turned into text first, so `null` and the
booleans give `NaN` and an integer number gives itself. -/
def parseInt : JsValue → Option Int
  | JsValue.null => none
  | JsValue.bool _ => none
  | JsValue.number n => some n
  | JsValue.text s => parseIntText s

/-- The constant `ALLOWED_DURATIONS`. -/
def ALLOWED_DURATIONS : List Int := [15, 30, 45, 60, 90, 120]

/-- A JavaScript number as `Number(text)` may return it. -/
inductive JsNumber where
  | nan
  | negInfinity
  | finite (q : Rat)
  | posInfinity
  deriving DecidableEq

/-- The comparison `x < n` of a JavaScript number with an integer. -/
def JsNumber.ltInt : JsNumber → Int → Bool
  | JsNumber.nan, _ => false
  | JsNumber.negInfinity, _ => true
  | JsNumber.finite q, n => decide (q < (n : Rat))
  | JsNumber.posInfinity, _ => false

/-- The comparison `x > n` of a JavaScript number with an integer. -/
def JsNumber.gtInt : JsNumber → Int → Bool
  | JsNumber.nan, _ => false
  | JsNumber.negInfinity, _ => false
  | JsNumber.finite q, n => decide (q > (n : Rat))
  | JsNumber.posInfinity, _ => true

/-- The conversion to a number that `isNaN(value)` and `value < n` apply to a present
value; `Number(text)` belongs to the language and is the parameter `textToNumber`. -/
def toNumber (textToNumber : String → JsNumber) : JsValue → JsNumber
  | JsValue.null => JsNumber.finite 0
  | JsValue.bool b => JsNumber.finite (if b then 1 else 0)
  | JsValue.number n => JsNumber.finite (n : Rat)
  | JsValue.text s => textToNumber s

/-- The length `value.length` of a text, in UTF-16 code units. -/
def utf16Length (s : String) : Nat :=
  (s.toList.map fun c => if c.toNat < 0x10000 then 1 else 2).sum

/-- The text `String(value)` of a present value. -/
def jsToString : JsValue → String
  | JsValue.null => "null"
  | JsValue.bool b => if b then "true" else "false"
  | JsValue.number n => toString n
  | JsValue.text s => s

/-- The validator `EventTypeSchema.validators.title`. -/
def EventTypeSchema.title (value : Option JsValue) : Option String :=
  match value with
  | some (JsValue.text s) =>
    if s == "" then some "Título es requerido"
    else if utf16Length s > 100 then some "El título no puede tener más de 100 caracteres"
    else none
  | _ => some "Título es requerido"

/-- The test `/^[a-z0-9-]+$/.test(text)`. -/
def slugRegexTest (text : String) : Bool :=
  !text.toList.isEmpty &&
    text.toList.all fun c =>
      (decide ('a' ≤ c) && decide (c ≤ 'z')) || c.isDigit || c == '-'

/-- The validator `EventTypeSchema.validators.slug`. -/
def EventTypeSchema.slug (value : Option JsValue) : Option String :=
  match value with
  | none => none
  | some v =>
    if v.truthy && !slugRegexTest (jsToString v) then
      some "El slug solo puede contener letras minúsculas, números y guiones"
    else none

/-- The validator `EventTypeSchema.validators.duration`. -/
def EventTypeSchema.duration (value : Option JsValue) : Option String :=
  match value with
  | none => some "La duración es requerida"
  | some v =>
    if !v.truthy then some "La duración es requerida"
    else
      match parseInt v with
      | some n =>
        if !ALLOWED_DURATIONS.contains n then
          some ("La duración debe ser uno de los siguientes valores: " ++
            "15, 30, 45, 60, 90, 120 minutos")
        else none
      | none =>
        some ("La duración debe ser uno de los siguientes valores: " ++
          "15, 30, 45, 60, 90, 120 minutos")

/-- The validator `EventTypeSchema.validators.minNotice`. -/
def EventTypeSchema.minNotice (textToNumber : String → JsNumber) (value : Option JsValue) :
    Option String :=
  match value with
  | none => none
  | some v =>
    let x := toNumber textToNumber v
    if v.truthy && (x == JsNumber.nan || x.ltInt 0) then
      some "El tiempo mínimo de antelación debe ser un número positivo"
    else none

/-- The validator `EventTypeSchema.validators.maxBookingDays`. -/
def EventTypeSchema.maxBookingDays (textToNumber : String → JsNumber)
    (value : Option JsValue) : Option String :=
  match value with
  | none => none
  | some v =>
    let x := toNumber textToNumber v
    if v.truthy && (x == JsNumber.nan || x.ltInt 1 || x.gtInt 365) then
      some "El período máximo de reserva debe estar entre 1 y 365 días"
    else none

/-- The argument of `validateEventType` and `createEventType`: `userId` is set by the
controllers from the authenticated user, the others come from the request body and may be
absent (`hasOwnProperty` is `isSome`). -/
structure EventTypeData where
  title : Option JsValue
  userId : String
  duration : Option JsValue
  slug : Option JsValue
  minNotice : Option JsValue
  maxBookingDays : Option JsValue
  description : Option JsValue := none
  color : Option JsValue := none
  isActive : Option JsValue := none
  requiresConfirmation : Option JsValue := none
  bufferBefore : Option JsValue := none
  bufferAfter : Option JsValue := none
  maxBookingsPerDay : Option JsValue := none
  deriving DecidableEq, Repr

/-- The object `errors` of `validateEventType`, one optional message per key it can get. -/
structure EventTypeErrors where
  title : Option String
  userId : Option String
  duration : Option String
  slug : Option String
  minNotice : Option String
  maxBookingDays : Option String
  deriving DecidableEq, Repr

/-- The result `{ isValid, errors }` of `validateEventType`. -/
structure EventTypeValidation where
  isValid : Bool
  errors : EventTypeErrors
  deriving DecidableEq, Repr

/-- The final entry `errors[field]` of `validateEventType` for a required field with a
validator: the `required.forEach` writes its message when the value is falsy, then the
validator runs when the property is present and its message, if any, replaces it. -/
def requiredThenValidator (field : String) (value : Option JsValue)
    (validator : Option JsValue → Option String) : Option String :=
  let requiredError : Option String :=
    if !truthyValue value then some ("El campo " ++ field ++ " es requerido") else none
  let validatorError : Option String :=
    if value.isSome then validator value else none
  match validatorError with
  | some error => some error
  | none => requiredError

/-- The function `EventTypeSchema.validateEventType`. -/
def validateEventType (textToNumber : String → JsNumber) (eventTypeData : EventTypeData) :
    EventTypeValidation :=
  let errors : EventTypeErrors :=
    { title := requiredThenValidator "title" eventTypeData.title EventTypeSchema.title
      userId :=
        if eventTypeData.userId == "" then some "El campo userId es requerido" else none
      duration := requiredThenValidator "duration" eventTypeData.duration EventTypeSchema.duration
      slug := EventTypeSchema.slug eventTypeData.slug
      minNotice := EventTypeSchema.minNotice textToNumber eventTypeData.minNotice
      maxBookingDays := EventTypeSchema.maxBookingDays textToNumber eventTypeData.maxBookingDays }
  { isValid := errors.title.isNone && errors.userId.isNone && errors.duration.isNone &&
      errors.slug.isNone && errors.minNotice.isNone && errors.maxBookingDays.isNone
    errors := errors }

/-! ## `src/models/EventType.js`: `createEventType` -/

/-- The expression `value || fallback` on a property that may be absent. -/
def jsOr (value : Option JsValue) (fallback : JsValue) : JsValue :=
  match value with
  | some v => if v.truthy then v else fallback
  | none => fallback

/-- The replacement `.replace(/\s+/g, '-')` on the characters of a text: every maximal run of
white space becomes one hyphen.  `inRun` tells that the previous character was white
space. -/
def hyphenateWhitespace : List Char → Bool → List Char
  | [], _ => []
  | c :: rest, inRun =>
    if isJsWhitespace c then
      if inRun then hyphenateWhitespace rest true
      else '-' :: hyphenateWhitespace rest true
    else c :: hyphenateWhitespace rest false

/-- The class `\w` of the regular expressions: ASCII letters, digits and the underscore. -/
def isWordChar (c : Char) : Bool :=
  (decide ('a' ≤ c) && decide (c ≤ 'z')) || (decide ('A' ≤ c) && decide (c ≤ 'Z')) ||
    c.isDigit || c == '_'

/-- The replacement `.replace(/[^\w-]+/g, '')`: every character that is neither of the class
`\w` nor a hyphen is deleted. -/
def removeNonWord (chars : List Char) : List Char :=
  chars.filter fun c => isWordChar c || c == '-'

/-- The slug `createEventType` derives from a title that is a text:
`title.toLowerCase().replace(/\s+/g, '-').replace(/[^\w-]+/g, '')`. -/
def deriveSlug (toLowerCase : String → String) (title : String) : String :=
  String.mk (removeNonWord (hyphenateWhitespace (toLowerCase title).toList false))

/-- The record `createEventType` returns.  `duration` is `parseInt(eventTypeData.duration)`,
`none` for `NaN`. -/
structure EventTypeRecord where
  id : String
  userId : String
  title : Option JsValue
  slug : JsValue
  description : JsValue
  duration : Option Int
  color : JsValue
  isActive : JsValue
  requiresConfirmation : JsValue
  minNotice : JsValue
  maxBookingDays : JsValue
  bufferBefore : JsValue
  bufferAfter : JsValue
  maxBookingsPerDay : JsValue
  createdAt : String
  updatedAt : String
  deriving DecidableEq, Repr

/-- The value `slug` of `createEventType`: the supplied slug when it is truthy, else the slug
derived from the title, else the empty text.  The result is `none` where the source throws:
a truthy title that is not a text has no method `toLowerCase`. -/
def createEventTypeSlug (toLowerCase : String → String) (eventTypeData : EventTypeData) :
    Option JsValue :=
  if truthyValue eventTypeData.slug then eventTypeData.slug
  else if truthyValue eventTypeData.title then
    match eventTypeData.title with
    | some (JsValue.text title) => some (JsValue.text (deriveSlug toLowerCase title))
    | _ => none
  else some (JsValue.text "")

/-- The function `EventTypeSchema.createEventType`; `uuid` and `timestamp` are the values of
`uuidv4()` and `new Date().toISOString()`, `toLowerCase` is the method of texts.  The
result is `none` where the source throws. -/
def createEventType (toLowerCase : String → String) (uuid timestamp : String)
    (eventTypeData : EventTypeData) : Option EventTypeRecord :=
  match createEventTypeSlug toLowerCase eventTypeData with
  | none => none
  | some slug =>
    some
      { id := uuid
        userId := eventTypeData.userId
        title := eventTypeData.title
        slug := slug
        description := jsOr eventTypeData.description (JsValue.text "")
        duration :=
          match eventTypeData.duration with
          | some v => parseInt v
          | none => none
        color := jsOr eventTypeData.color (JsValue.text "#3788d8")
        isActive :=
          match eventTypeData.isActive with
          | some v => v
          | none => JsValue.bool true
        requiresConfirmation :=
          match eventTypeData.requiresConfirmation with
          | some v => v
          | none => JsValue.bool false
        minNotice := jsOr eventTypeData.minNotice (JsValue.number 60)
        maxBookingDays := jsOr eventTypeData.maxBookingDays (JsValue.number 60)
        bufferBefore := jsOr eventTypeData.bufferBefore (JsValue.number 0)
        bufferAfter := jsOr eventTypeData.bufferAfter (JsValue.number 0)
        maxBookingsPerDay := jsOr eventTypeData.maxBookingsPerDay JsValue.null
        createdAt := timestamp
        updatedAt := timestamp }

/-! ## `src/models/Booking.js` -/

/-- A document of the `bookings` collection as the store keeps it: `startTime` and `endTime`
are the texts the client sent; `rescheduleCount` and `cancellationReason` may be unset. -/
structure BookingDoc where
  id : String
  uid : String
  eventTypeId : String
  userId : String
  startTime : String
  endTime : String
  inviteeEmail : String
  inviteeName : String
  inviteePhone : Option String
  status : String
  notes : String
  location : String
  timezone : String
  questions : List String
  cancellationReason : Option String
  rescheduleCount : Option Int
  createdAt : String
  updatedAt : String
  deriving DecidableEq, Repr

/-- The library and clock primitives the booking code calls; they are parameters of the
embedding. -/
structure Runtime where
  /-- The value `moment(text)`: the instant in epoch milliseconds, `none` when invalid. -/
  moment : String → Option Int
  /-- The test of `validators.inviteeEmail` against its regular expression. -/
  emailRegexTest : String → Bool
  /-- The method `toLowerCase` of texts. -/
  toLowerCase : String → String
  /-- The identifier the next call of `uuidv4()` returns. -/
  uuidv4 : String
  /-- The code the next call of `generateBookingUID(6)` returns. -/
  generateBookingUID : String
  /-- The text `new Date().toISOString()` of the current request. -/
  now : String

/-- The values of the table `BOOKING_STATUS`, `Object.values(BOOKING_STATUS)`. -/
def BOOKING_STATUS.values : List String :=
  [BOOKING_STATUS.PENDING, BOOKING_STATUS.CONFIRMED, BOOKING_STATUS.CANCELLED,
    BOOKING_STATUS.COMPLETED, BOOKING_STATUS.NO_SHOW]

/-- The object `bookingData` that `createBooking` hands to `validateBooking` and to
`BookingSchema.createBooking`; an absent property is `none`. -/
structure BookingData where
  eventTypeId : Option String
  userId : Option String
  startTime : Option String
  endTime : Option String
  inviteeEmail : Option String
  inviteeName : Option String
  inviteePhone : Option String
  notes : Option String
  timezone : Option String
  location : Option String
  questions : Option (List String)
  status : Option String
  deriving DecidableEq, Repr

/-- The validator `BookingSchema.validators.inviteeEmail`. -/
def BookingSchema.inviteeEmail (rt : Runtime) (value : Option String) : Option String :=
  if !truthyString value then some "El email del invitado es requerido"
  else if !rt.emailRegexTest (value.getD "") then some "Email inválido"
  else none

/-- The validator `BookingSchema.validators.inviteeName`, on a text. -/
def BookingSchema.inviteeName (value : Option String) : Option String :=
  if !truthyString value then some "El nombre del invitado es requerido"
  else if utf16Length (value.getD "") > 100 then
    some "El nombre no puede tener más de 100 caracteres"
  else none

/-- The validator `BookingSchema.validators.dateTime`. -/
def BookingSchema.dateTime (rt : Runtime) (value : Option String) : Option String :=
  if !truthyString value then some "La fecha y hora son requeridas"
  else
    match rt.moment (value.getD "") with
    | none => some "Formato de fecha inválido. Use un formato compatible con ISO 8601"
    | some _ => none

/-- The validator `BookingSchema.validators.dateRange`. -/
def BookingSchema.dateRange (rt : Runtime) (start end_ : Option String) : Option String :=
  if !truthyString start || !truthyString end_ then some "Ambas fechas son requeridas"
  else
    match rt.moment (start.getD ""), rt.moment (end_.getD "") with
    | some startDate, some endDate =>
      if startDate ≥ endDate then some "La fecha de inicio debe ser anterior a la fecha de fin"
      else none
    | _, _ => some "Formato de fecha inválido"

/-- The validator `BookingSchema.validators.status`. -/
def BookingSchema.status (value : Option String) : Option String :=
  if truthyString value && !BOOKING_STATUS.values.contains (value.getD "") then
    some ("Estado inválido. Debe ser uno de: " ++
      "pending, confirmed, cancelled, completed, no-show")
  else none

/-- The object `errors` of `validateBooking`, one optional message per key it can get. -/
structure BookingErrors where
  eventTypeId : Option String
  userId : Option String
  startTime : Option String
  endTime : Option String
  inviteeEmail : Option String
  inviteeName : Option String
  dateRange : Option String
  status : Option String
  deriving DecidableEq, Repr

/-- The result `{ isValid, errors }` of `validateBooking`. -/
structure BookingValidation where
  isValid : Bool
  errors : BookingErrors
  deriving DecidableEq, Repr

/-- The message the `required.forEach` of `validateBooking` writes for a falsy field. -/
def requiredField (field : String) (value : Option String) : Option String :=
  if !truthyString value then some ("El campo " ++ field ++ " es requerido") else none

/-- The final entry `errors[field]` of `validateBooking` for a required field with a format
validator: the validator runs only for a truthy value, where the required message is
absent. -/
def requiredThenFormat (field : String) (value : Option String)
    (validator : Option String → Option String) : Option String :=
  if truthyString value then validator value else requiredField field value

/-- The function `BookingSchema.validateBooking`. -/
def validateBooking (rt : Runtime) (bookingData : BookingData) : BookingValidation :=
  let errors : BookingErrors :=
    { eventTypeId := requiredField "eventTypeId" bookingData.eventTypeId
      userId := requiredField "userId" bookingData.userId
      startTime := requiredThenFormat "startTime" bookingData.startTime (BookingSchema.dateTime rt)
      endTime := requiredThenFormat "endTime" bookingData.endTime (BookingSchema.dateTime rt)
      inviteeEmail :=
        requiredThenFormat "inviteeEmail" bookingData.inviteeEmail (BookingSchema.inviteeEmail rt)
      inviteeName :=
        requiredThenFormat "inviteeName" bookingData.inviteeName BookingSchema.inviteeName
      dateRange :=
        if truthyString bookingData.startTime && truthyString bookingData.endTime then
          BookingSchema.dateRange rt bookingData.startTime bookingData.endTime
        else none
      status :=
        if truthyString bookingData.status then BookingSchema.status bookingData.status
        else none }
  { isValid := errors.eventTypeId.isNone && errors.userId.isNone && errors.startTime.isNone &&
      errors.endTime.isNone && errors.inviteeEmail.isNone && errors.inviteeName.isNone &&
      errors.dateRange.isNone && errors.status.isNone
    errors := errors }

/-- The function `BookingSchema.createBooking`.  The result is `none` where the source
throws (`inviteeEmail.toLowerCase()` on an absent email) or builds a document with an
`undefined` required field, which the store refuses to write; `createBooking` calls it only
after `validateBooking` has found all of them truthy. -/
def BookingSchema.createBooking (rt : Runtime) (bookingData : BookingData) : Option BookingDoc :=
  let timestamp := rt.now
  match bookingData.eventTypeId, bookingData.userId, bookingData.startTime,
    bookingData.endTime, bookingData.inviteeEmail, bookingData.inviteeName with
  | some eventTypeId, some userId, some startTime, some endTime, some inviteeEmail,
    some inviteeName =>
    some
      { id := rt.uuidv4
        uid := rt.generateBookingUID
        eventTypeId := eventTypeId
        userId := userId
        startTime := startTime
        endTime := endTime
        inviteeEmail := rt.toLowerCase inviteeEmail
        inviteeName := inviteeName
        inviteePhone := orString bookingData.inviteePhone none
        status := (orString bookingData.status (some BOOKING_STATUS.CONFIRMED)).getD
          BOOKING_STATUS.CONFIRMED
        notes := (orString bookingData.notes (some "")).getD ""
        location := (orString bookingData.location (some "Online")).getD "Online"
        timezone := (orString bookingData.timezone (some "America/Mexico_City")).getD
          "America/Mexico_City"
        questions := bookingData.questions.getD []
        cancellationReason := none
        rescheduleCount := some 0
        createdAt := timestamp
        updatedAt := timestamp }
  | _, _, _, _, _, _ => none

/-! ## `src/controllers/bookingController.js`: the handlers -/

/-- The user `req.user` that the authentication middleware attaches to a request. -/
structure AuthUser where
  uid : String
  email : Option String
  deriving DecidableEq, Repr

/-- The response of a booking handler. -/
inductive BookingResponse where
  /-- HTTP 201 with `data: newBooking`. -/
  | created (data : BookingDoc)
  /-- HTTP 200 with `data: updatedBooking`. -/
  | ok (data : BookingDoc)
  /-- HTTP 400 with the errors of `validationResult(req)`. -/
  | requestInvalid
  /-- HTTP 400 with the errors of `validateBooking`. -/
  | schemaInvalid (errors : BookingErrors)
  /-- HTTP 400, `El horario solicitado ya está reservado`. -/
  | slotTaken
  /-- HTTP 400 of `updateBookingStatus`, `Estado inválido`. -/
  | statusInvalid
  /-- HTTP 400 of `rescheduleBooking`, `Debe proporcionar startTime y endTime`. -/
  | timesMissing
  /-- HTTP 403. -/
  | forbidden
  /-- HTTP 404. -/
  | notFound
  /-- HTTP 500, the `catch` block. -/
  | serverError
  deriving DecidableEq, Repr

/-- What a booking handler leaves behind: its response and the `bookings` collection. -/
structure BookingResult where
  response : BookingResponse
  bookings : List BookingDoc
  deriving DecidableEq, Repr

/-- The read `bookingsCollection.doc(bookingId).get()`: the document with that id. -/
def getBookingDoc (bookings : List BookingDoc) (bookingId : String) : Option BookingDoc :=
  bookings.find? fun doc => doc.id == bookingId

/-- The write `bookingsCollection.doc(bookingId).update(updateData)`: the properties of
`updateData`, given as the function `patch`, replace those of the document with that id;
every other document and every other property stay as they are. -/
def updateBookingDoc (bookings : List BookingDoc) (bookingId : String)
    (patch : BookingDoc → BookingDoc) : List BookingDoc :=
  bookings.map fun doc => if doc.id == bookingId then patch doc else doc

/-- The write `bookingsCollection.doc(newBooking.id).set(newBooking)`. -/
def setBookingDoc (bookings : List BookingDoc) (newBooking : BookingDoc) : List BookingDoc :=
  (bookings.filter fun doc => !(doc.id == newBooking.id)) ++ [newBooking]

/-- The view of a stored document the overlap test of `createBooking` works with:
`moment(booking.startTime)` and `moment(booking.endTime)`.  A document with an invalid moment
has no view: every comparison with an invalid moment is false, so all three disjuncts of
the test are false and the document never enters `isOverlapping`. -/
def BookingDoc.toBooking (rt : Runtime) (doc : BookingDoc) : Option Booking :=
  match rt.moment doc.startTime, rt.moment doc.endTime with
  | some startTime, some endTime =>
    some { id := doc.id, userId := doc.userId, startTime := startTime, endTime := endTime,
           status := doc.status }
  | _, _ => none

/-- The body `req.body` of `createBooking`, with the outcome of `validationResult(req)`. -/
structure CreateBookingRequest where
  validationErrorsEmpty : Bool
  eventTypeId : Option String
  startTime : Option String
  endTime : Option String
  inviteeEmail : Option String
  inviteeName : Option String
  inviteePhone : Option String
  notes : Option String
  timezone : Option String
  location : Option String
  questions : Option (List String)
  deriving DecidableEq, Repr

/-- The object `BookingSchema` of `src/controllers/bookingController.js` (line 2), the value
of `require('../models/Booking')`, by the two methods the handlers call on it. -/
structure BookingModule where
  /-- The property `BookingSchema.validateBooking`. -/
  validateBooking : Option (Runtime → BookingData → BookingValidation)
  /-- The property `BookingSchema.createBooking`. -/
  createBooking : Option (Runtime → BookingData → Option BookingDoc)

/-- The value of `require('../models/Booking')`: `src/models/Booking.js` never assigns
`module.exports`, so the object is empty and both methods are `undefined` (`none`); calling
one throws a `TypeError`. -/
def bookingController.BookingSchema : BookingModule :=
  { validateBooking := none, createBooking := none }

/-- The value `initialStatus` of `createBooking` (source lines 56 to 58): the condition is
the truthiness of the stored `requiresConfirmation`, and either branch reads a property of
the controller's `BOOKING_STATUS`; the result is `none` where that throws. -/
def initialStatus (eventType : EventType) : Option String :=
  if truthyValue eventType.requiresConfirmation then
    bookingController.BOOKING_STATUS.map fun table => table.PENDING
  else bookingController.BOOKING_STATUS.map fun table => table.CONFIRMED

/-- The handler `createBooking`.  An absent or empty `eventTypeId` makes
`eventTypesCollection.doc(eventTypeId)` throw, which ends in the `catch` block, as does
every `TypeError` of the body; the notification e-mails are left out. -/
def createBooking (rt : Runtime) (eventTypes : List (String × EventType))
    (bookings : List BookingDoc) (req : CreateBookingRequest) : BookingResult :=
  if !req.validationErrorsEmpty then
    { response := BookingResponse.requestInvalid, bookings := bookings }
  else if !truthyString req.eventTypeId then
    { response := BookingResponse.serverError, bookings := bookings }
  else
    match eventTypes.lookup (req.eventTypeId.getD "") with
    | none => { response := BookingResponse.notFound, bookings := bookings }
    | some eventType =>
      let userId := eventType.userId
      match initialStatus eventType with
      | none => { response := BookingResponse.serverError, bookings := bookings }
      | some initialStatus =>
        let bookingData : BookingData :=
          { eventTypeId := req.eventTypeId
            userId := some userId
            startTime := req.startTime
            endTime := req.endTime
            inviteeEmail := req.inviteeEmail
            inviteeName := req.inviteeName
            inviteePhone := req.inviteePhone
            notes := req.notes
            timezone := req.timezone
            location := req.location
            questions := req.questions
            status := some initialStatus }
        match bookingController.BookingSchema.validateBooking with
        | none => { response := BookingResponse.serverError, bookings := bookings }
        | some validateBooking =>
          let validation := validateBooking rt bookingData
          if !validation.isValid then
            { response := BookingResponse.schemaInvalid validation.errors, bookings := bookings }
          else
            let admission :=
              match rt.moment (req.startTime.getD ""), rt.moment (req.endTime.getD "") with
              | some startDateTime, some endDateTime =>
                createBookingAvailability (bookings.filterMap (BookingDoc.toBooking rt)) userId
                  startDateTime endDateTime
              | _, _ =>
                match
                  overlappingBookingsSnapshot (bookings.filterMap (BookingDoc.toBooking rt))
                    userId with
                | none => Admission.throws
                | some _ => Admission.accept
            match admission with
            | Admission.throws =>
              { response := BookingResponse.serverError, bookings := bookings }
            | Admission.slotTaken =>
              { response := BookingResponse.slotTaken, bookings := bookings }
            | Admission.accept =>
              match bookingController.BookingSchema.createBooking with
              | none => { response := BookingResponse.serverError, bookings := bookings }
              | some createBooking =>
                match createBooking rt bookingData with
                | none => { response := BookingResponse.serverError, bookings := bookings }
                | some newBooking =>
                  { response := BookingResponse.created newBooking
                    bookings := setBookingDoc bookings newBooking }

/-- The handler `updateBookingStatus`; the route is protected, so `req.user` is set.
The notification e-mail is left out.  `Object.values(BOOKING_STATUS)` is evaluated before
any answer is sent: in the condition of line 259 for a truthy `status`, and in the message
of the 400 answer (line 262) for a falsy one; where it throws, the `catch` block answers. -/
def updateBookingStatus (now : String) (bookings : List BookingDoc) (bookingId : String)
    (user : AuthUser) (status cancellationReason : Option String) : BookingResult :=
  let userId := user.uid
  match bookingController.BOOKING_STATUS with
  | none => { response := BookingResponse.serverError, bookings := bookings }
  | some table =>
    if !truthyString status || !table.values.contains (status.getD "") then
      { response := BookingResponse.statusInvalid, bookings := bookings }
    else
      match getBookingDoc bookings bookingId with
      | none => { response := BookingResponse.notFound, bookings := bookings }
      | some booking =>
        if booking.userId != userId then
          { response := BookingResponse.forbidden, bookings := bookings }
        else
          let status := status.getD ""
          let patch : BookingDoc → BookingDoc := fun doc =>
            { doc with
              status := status
              updatedAt := now
              cancellationReason :=
                if status == table.CANCELLED && truthyString cancellationReason then
                  cancellationReason
                else doc.cancellationReason }
          let bookings := updateBookingDoc bookings bookingId patch
          match getBookingDoc bookings bookingId with
          | none => { response := BookingResponse.serverError, bookings := bookings }
          | some updatedBooking =>
            { response := BookingResponse.ok updatedBooking, bookings := bookings }

/-- The handler `rescheduleBooking`; `user` is `req.user`, set by the optional
authentication when the request carries a valid credential.  The notification e-mails are
left out. -/
def rescheduleBooking (now : String) (bookings : List BookingDoc) (bookingId : String)
    (user : Option AuthUser) (startTime endTime token : Option String) : BookingResult :=
  if !truthyString startTime || !truthyString endTime then
    { response := BookingResponse.timesMissing, bookings := bookings }
  else
    match getBookingDoc bookings bookingId with
    | none => { response := BookingResponse.notFound, bookings := bookings }
    | some booking =>
      let isOwner :=
        match user with
        | some u => u.uid == booking.userId
        | none => false
      let isInvitee :=
        match user with
        | some u => u.email == some booking.inviteeEmail
        | none => false
      if !isOwner && !isInvitee && token != some ("reschedule-" ++ booking.id) then
        { response := BookingResponse.forbidden, bookings := bookings }
      else
        let patch : BookingDoc → BookingDoc := fun doc =>
          { doc with
            startTime := startTime.getD ""
            endTime := endTime.getD ""
            rescheduleCount := some (booking.rescheduleCount.getD 0 + 1)
            updatedAt := now }
        let bookings := updateBookingDoc bookings bookingId patch
        match getBookingDoc bookings bookingId with
        | none => { response := BookingResponse.serverError, bookings := bookings }
        | some updatedBooking =>
          { response := BookingResponse.ok updatedBooking, bookings := bookings }

/-- The handler `cancelBooking`.  The notification e-mails are left out.  After the
authorisation test the object `updateData` is built, which reads `BOOKING_STATUS.CANCELLED`
(line 440) before anything is written; where that throws, the `catch` block answers. -/
def cancelBooking (now : String) (bookings : List BookingDoc) (bookingId : String)
    (user : Option AuthUser) (reason token : Option String) : BookingResult :=
  match getBookingDoc bookings bookingId with
  | none => { response := BookingResponse.notFound, bookings := bookings }
  | some booking =>
    let isOwner :=
      match user with
      | some u => u.uid == booking.userId
      | none => false
    let isInvitee :=
      match user with
      | some u => u.email == some booking.inviteeEmail
      | none => false
    if !isOwner && !isInvitee && token != some ("cancel-" ++ booking.id) then
      { response := BookingResponse.forbidden, bookings := bookings }
    else
      match bookingController.BOOKING_STATUS with
      | none => { response := BookingResponse.serverError, bookings := bookings }
      | some table =>
        let patch : BookingDoc → BookingDoc := fun doc =>
          { doc with
            status := table.CANCELLED
            cancellationReason :=
              some ((orString reason (some "No se proporcionó razón")).getD
                "No se proporcionó razón")
            updatedAt := now }
        let bookings := updateBookingDoc bookings bookingId patch
        match getBookingDoc bookings bookingId with
        | none => { response := BookingResponse.serverError, bookings := bookings }
        | some updatedBooking =>
          { response := BookingResponse.ok updatedBooking, bookings := bookings }

/-! ## `src/utils/validation.js`: `isValidTimeRange` -/

/-- The function `isValidTimeRange(start, end)` of `src/utils/validation.js`; `isBefore` of two
valid moments is `<` on their minutes, and false when a moment is invalid. -/
def isValidTimeRange (lenient : String → Option Int) (start end_ : String) : Bool :=
  if !isValidTimeFormat start || !isValidTimeFormat end_ then false
  else
    let startTime := momentHHmm lenient start
    let endTime := momentHHmm lenient end_
    match startTime, endTime with
    | some startTime, some endTime => decide (startTime < endTime)
    | _, _ => false

/-! ## `src/controllers/bookingController.js`: `getBookings` -/

/-- The method `Array.prototype.sort(compare)` for a comparator that orders the items
consistently: the stable sort that puts `a` before `b` when `compare(a, b) < 0` and keeps
the order of items that compare as 0.  That result is unique; it is computed here by
insertion. -/
def arraySort {α : Type} (compare : α → α → Int) (items : List α) : List α :=
  List.insertionSort (fun a b => compare a b ≤ 0) items

/-- The comparator `(a, b) => moment(b.startTime).diff(moment(a.startTime))` of `getBookings`:
the difference of the two instants in milliseconds; with an invalid moment the difference is
`NaN`, which `sort` reads as 0. -/
def compareByStartDesc (rt : Runtime) (a b : BookingDoc) : Int :=
  match rt.moment b.startTime, rt.moment a.startTime with
  | some bStart, some aStart => bStart - aStart
  | _, _ => 0

/-- The query of `getBookings`: the documents of the user, of the status when a known status
is given, and with `startTime` between the texts of the start of `startDate` and of the end
of `endDate` when those are given.  The store compares the stored texts with the bounds as
texts; `moment(date).startOf('day').toISOString()` and its `endOf` counterpart are the
parameters `startOfDayISO` and `endOfDayISO`.  For a truthy `status` the condition of line
154 goes on to `Object.values(BOOKING_STATUS)`; the result is `none` where that throws. -/
def getBookingsQuery (startOfDayISO endOfDayISO : String → String) (bookings : List BookingDoc)
    (userId : String) (status startDate endDate : Option String) :
    Option (List BookingDoc) :=
  let byUser := bookings.filter fun doc => doc.userId == userId
  let byStatus : Option (List BookingDoc) :=
    if truthyString status then
      match bookingController.BOOKING_STATUS with
      | none => none
      | some table =>
        if table.values.contains (status.getD "") then
          some (byUser.filter fun doc => doc.status == status.getD "")
        else some byUser
    else some byUser
  match byStatus with
  | none => none
  | some byStatus =>
    let byStart :=
      if truthyString startDate then
        byStatus.filter fun doc => !decide (doc.startTime < startOfDayISO (startDate.getD ""))
      else byStatus
    if truthyString endDate then
      some (byStart.filter fun doc => !decide (endOfDayISO (endDate.getD "") < doc.startTime))
    else some byStart

/-- The body `{ count, data }` of the 200 answer of `getBookings`. -/
structure BookingsListing where
  count : Nat
  data : List BookingDoc
  deriving DecidableEq, Repr

/-- The response of `getBookings`. -/
inductive BookingsResponse where
  /-- HTTP 200 with `count` and `data`. -/
  | ok (listing : BookingsListing)
  /-- HTTP 500, the `catch` block. -/
  | serverError
  deriving DecidableEq, Repr

/-- The handler `getBookings`; the route is protected, so `req.user` is set. -/
def getBookings (rt : Runtime) (startOfDayISO endOfDayISO : String → String)
    (bookingsCollection : List BookingDoc) (user : AuthUser)
    (status startDate endDate : Option String) : BookingsResponse :=
  let userId := user.uid
  match
    getBookingsQuery startOfDayISO endOfDayISO bookingsCollection userId status startDate
      endDate with
  | none => BookingsResponse.serverError
  | some snapshot =>
    let bookings := arraySort (compareByStartDesc rt) snapshot
    BookingsResponse.ok { count := bookings.length, data := bookings }

/-! ## The slot loop with an iteration counter -/

/-- The loop of `slotLoop` with a counter of the iterations, that is of the times the loop
body is entered (the iteration that ends in `break` included); the first component is the
array `slots`. -/
def slotLoopCounted (endTime duration bufferBefore bufferAfter : Int)
    (existingBookings : List Booking) (slots : List Slot) (slotStart : Int)
    (iterations : Nat) : List Slot × Nat :=
  if slotStart < endTime then
    let slotEnd := slotStart + duration * msPerMinute
    if slotEnd > endTime then
      (slots, iterations + 1)
    else
      let isOverlapping :=
        existingBookings.any (slotConflict bufferBefore bufferAfter slotStart slotEnd)
      let slots := if !isOverlapping then slots ++ [{ start := slotStart, end_ := slotEnd }]
                   else slots
      slotLoopCounted endTime duration bufferBefore bufferAfter existingBookings slots
        (slotStart + 15 * msPerMinute) (iterations + 1)
  else
    (slots, iterations)
termination_by (endTime - slotStart).toNat
decreasing_by
  simp only [msPerMinute]
  omega

/-! ## Example data -/

/-- A confirmed booking of host `host`, 14:00 to 14:30 (milliseconds of the day). -/
def bookingConfirmed1400 : Booking :=
  { id := "b1", userId := "host", startTime := 50400000, endTime := 52200000,
    status := "confirmed" }

/-- A cancelled booking of host `host`, 14:15 to 14:45. -/
def bookingCancelled1415 : Booking :=
  { id := "b2", userId := "host", startTime := 51300000, endTime := 53100000,
    status := "cancelled" }

/-- An event type of host `host`: 60 minutes, buffers unset, no time zone. -/
def eventTypeSixty : EventType :=
  { userId := "host", duration := 60, bufferBefore := none, bufferAfter := none,
    timezone := none }

/-- A store with the event type `evt` and no availability document and no booking. -/
def storeDefault : Store :=
  { eventTypes := [("evt", eventTypeSixty)], availability := [], bookings := [] }

/-- A calendar in which every requested date is a Saturday and times do not parse. -/
def calendarSaturday : Calendar :=
  { weekdayName := fun _ _ => "saturday", momentTz := fun _ _ => none,
    startOfDay := fun _ => 0, endOfDay := fun _ => 86399999 }

/-- Scenario B: a confirmed booking of host `host`, 10:00 to 10:30. -/
def bookingConfirmed1000 : Booking :=
  { id := "b3", userId := "host", startTime := 36000000, endTime := 37800000,
    status := "confirmed" }

/-- A runtime for the examples: `moment` knows four instants of 3 June 2024 (UTC), the e-mail
test accepts one address, and the generated values are fixed. -/
def exampleRuntime : Runtime :=
  { moment := fun text =>
      if text == "2024-06-03T14:00:00Z" then some 1717423200000
      else if text == "2024-06-03T14:30:00Z" then some 1717425000000
      else if text == "2024-06-03T15:00:00Z" then some 1717426800000
      else if text == "2024-06-03T15:30:00Z" then some 1717428600000
      else none
    emailRegexTest := fun text => text == "ana@example.com"
    toLowerCase := fun text => String.mk (text.toList.map Char.toLower)
    uuidv4 := "id-1"
    generateBookingUID := "ABC123"
    now := "2024-06-01T08:00:00.000Z" }

/-- A stored booking of host `host`, confirmed, 14:00 to 14:30 on 3 June 2024. -/
def bookingDocA : BookingDoc :=
  { id := "a", uid := "AAAAAA", eventTypeId := "evt", userId := "host"
    startTime := "2024-06-03T14:00:00Z", endTime := "2024-06-03T14:30:00Z"
    inviteeEmail := "ana@example.com", inviteeName := "Ana", inviteePhone := none
    status := "confirmed", notes := "", location := "Online", timezone := "UTC"
    questions := [], cancellationReason := none, rescheduleCount := some 0
    createdAt := "2024-05-01T08:00:00.000Z", updatedAt := "2024-05-01T08:00:00.000Z" }

/-- A stored booking of host `host`, confirmed, 15:00 to 15:30 on 3 June 2024, with no
`rescheduleCount`. -/
def bookingDocB : BookingDoc :=
  { id := "b", uid := "BBBBBB", eventTypeId := "evt", userId := "host"
    startTime := "2024-06-03T15:00:00Z", endTime := "2024-06-03T15:30:00Z"
    inviteeEmail := "bob@example.com", inviteeName := "Bob", inviteePhone := none
    status := "confirmed", notes := "", location := "Online", timezone := "UTC"
    questions := [], cancellationReason := none, rescheduleCount := none
    createdAt := "2024-05-02T08:00:00.000Z", updatedAt := "2024-05-02T08:00:00.000Z" }

/-- A stored booking of host `host` that was cancelled. -/
def bookingDocCancelled : BookingDoc :=
  { id := "c", uid := "CCCCCC", eventTypeId := "evt", userId := "host"
    startTime := "2024-06-03T15:00:00Z", endTime := "2024-06-03T15:30:00Z"
    inviteeEmail := "eve@example.com", inviteeName := "Eve", inviteePhone := none
    status := "cancelled", notes := "", location := "Online", timezone := "UTC"
    questions := [], cancellationReason := some "viaje", rescheduleCount := some 2
    createdAt := "2024-05-03T08:00:00.000Z", updatedAt := "2024-05-04T08:00:00.000Z" }

/-- The host `host` as authenticated user. -/
def hostUser : AuthUser :=
  { uid := "host", email := some "host@example.com" }

/-- An event type of host `host` that requires confirmation. -/
def eventTypeConfirm : EventType :=
  { userId := "host", duration := 30, bufferBefore := none, bufferAfter := none,
    timezone := none, requiresConfirmation := some (JsValue.bool true) }

/-- A request for 15:00 to 15:30 on 3 June 2024 for the event type `evt`. -/
def createRequest1500 : CreateBookingRequest :=
  { validationErrorsEmpty := true, eventTypeId := some "evt"
    startTime := some "2024-06-03T15:00:00Z", endTime := some "2024-06-03T15:30:00Z"
    inviteeEmail := some "ana@example.com", inviteeName := some "Ana", inviteePhone := none
    notes := none, timezone := none, location := none, questions := none }

/-- A request for 14:00 to 14:30 on 3 June 2024 for the event type `evt`: the interval of the
stored booking `a`. -/
def createRequest1400 : CreateBookingRequest :=
  { validationErrorsEmpty := true, eventTypeId := some "evt"
    startTime := some "2024-06-03T14:00:00Z", endTime := some "2024-06-03T14:30:00Z"
    inviteeEmail := some "ana@example.com", inviteeName := some "Ana", inviteePhone := none
    notes := none, timezone := none, location := none, questions := none }

/-- A request for 14:30 to 15:00 on 3 June 2024 for the event type `evt`: it starts where the
stored booking `a` ends. -/
def createRequest1430 : CreateBookingRequest :=
  { validationErrorsEmpty := true, eventTypeId := some "evt"
    startTime := some "2024-06-03T14:30:00Z", endTime := some "2024-06-03T15:00:00Z"
    inviteeEmail := some "ana@example.com", inviteeName := some "Ana", inviteePhone := none
    notes := none, timezone := none, location := none, questions := none }

/-- The view of the stored booking `a` that the overlap test works with: 14:00 to 14:30 on
3 June 2024 as instants. -/
def bookingViewA : Booking :=
  { id := "a", userId := "host", startTime := 1717423200000, endTime := 1717425000000,
    status := "confirmed" }

/-- A confirmed booking of host `host` across midnight: 23:30 on 2 June 2024 to 00:30 on
3 June 2024 (UTC). -/
def bookingAcrossMidnight : Booking :=
  { id := "n", userId := "host", startTime := 1717371000000, endTime := 1717374600000,
    status := "confirmed" }

/-- The stored document of the booking across midnight. -/
def bookingDocAcrossMidnight : BookingDoc :=
  { id := "n", uid := "NNNNNN", eventTypeId := "evt", userId := "host"
    startTime := "2024-06-02T23:30:00Z", endTime := "2024-06-03T00:30:00Z"
    inviteeEmail := "ana@example.com", inviteeName := "Ana", inviteePhone := none
    status := "confirmed", notes := "", location := "Online", timezone := "UTC"
    questions := [], cancellationReason := none, rescheduleCount := some 0
    createdAt := "2024-05-01T08:00:00.000Z", updatedAt := "2024-05-01T08:00:00.000Z" }

/-- An availability of host `host` whose only working day is Monday, 00:00 to 02:00. -/
def availabilityEarlyMonday : Availability :=
  { userId := "host"
    schedule :=
      { monday := some { start := some "00:00", end_ := some "02:00", isWorking := some true }
        tuesday := none, wednesday := none, thursday := none, friday := none
        saturday := none, sunday := none }
    exceptions := [] }

/-- A store with the event type `evt`, the early Monday availability and the booking across
midnight. -/
def storeAcrossMidnight : Store :=
  { eventTypes := [("evt", eventTypeSixty)], availability := [availabilityEarlyMonday],
    bookings := [bookingAcrossMidnight] }

/-- A calendar in which every requested date is a Monday, 00:00 and 02:00 of 3 June 2024
parse to their instants (UTC), and the day runs from 00:00:00.000 to 23:59:59.999. -/
def calendarEarlyMonday : Calendar :=
  { weekdayName := fun _ _ => "monday"
    momentTz := fun text _ =>
      if text == "2024-06-03T00:00" then some 1717372800000
      else if text == "2024-06-03T02:00" then some 1717380000000
      else none
    startOfDay := fun _ => 1717372800000
    endOfDay := fun _ => 1717459199999 }

/-- A runtime for the night examples: `moment` knows four instants around midnight of
3 June 2024 (UTC). -/
def exampleRuntimeNight : Runtime :=
  { moment := fun text =>
      if text == "2024-06-02T23:30:00Z" then some 1717371000000
      else if text == "2024-06-03T00:00:00Z" then some 1717372800000
      else if text == "2024-06-03T00:30:00Z" then some 1717374600000
      else if text == "2024-06-03T01:00:00Z" then some 1717376400000
      else none
    emailRegexTest := fun text => text == "ana@example.com"
    toLowerCase := fun text => String.mk (text.toList.map Char.toLower)
    uuidv4 := "id-1"
    generateBookingUID := "ABC123"
    now := "2024-06-01T08:00:00.000Z" }

/-- A request for 00:00 to 01:00 on 3 June 2024 for the event type `evt`. -/
def createRequestMidnight : CreateBookingRequest :=
  { validationErrorsEmpty := true, eventTypeId := some "evt"
    startTime := some "2024-06-03T00:00:00Z", endTime := some "2024-06-03T01:00:00Z"
    inviteeEmail := some "ana@example.com", inviteeName := some "Ana", inviteePhone := none
    notes := none, timezone := none, location := none, questions := none }

/-- An availability of host `host`: Monday 09:00 to 10:00 is the only working day, and the
date 3 June 2024, a Monday, has an exception that marks it as not working. -/
def availabilityWithException : Availability :=
  { userId := "host"
    schedule :=
      { monday := some { start := some "09:00", end_ := some "10:00", isWorking := some true }
        tuesday := none, wednesday := none, thursday := none, friday := none
        saturday := none, sunday := none }
    exceptions :=
      [{ date := "2024-06-03"
         day := { start := none, end_ := none, isWorking := some false } }] }

/-- A store with the event type `evt`, the availability with the exception, no booking. -/
def storeWithException : Store :=
  { eventTypes := [("evt", eventTypeSixty)], availability := [availabilityWithException],
    bookings := [] }

/-- A calendar in which every requested date is a Monday, and 09:00 and 10:00 of 3 June 2024
parse to their instants (UTC). -/
def calendarMonday : Calendar :=
  { weekdayName := fun _ _ => "monday"
    momentTz := fun text _ =>
      if text == "2024-06-03T09:00" then some 1717405200000
      else if text == "2024-06-03T10:00" then some 1717408800000
      else none
    startOfDay := fun _ => 1717372800000
    endOfDay := fun _ => 1717459199999 }

/-- The invariant of a weekday entry: when `isWorking` is true, `start` and `end` are
present, both in the 24-hour `HH:MM` form, and `start` is strictly earlier than `end`. -/
def WorkingDayValid (day : DaySchedule) : Prop :=
  day.isWorking = some true →
    ∃ s e, day.start = some s ∧ day.end_ = some e ∧
      isValidTimeFormat s = true ∧ isValidTimeFormat e = true ∧
      minutesOfDay s < minutesOfDay e

/-- A schedule sent with a request: Monday 10:00 to 12:00 without `isWorking`, Saturday
marked as working 09:30 to 11:00, Sunday marked as not working with a malformed time. -/
def requestSchedule : Schedule :=
  { monday := some { start := some "10:00", end_ := some "12:00", isWorking := none }
    tuesday := none, wednesday := none, thursday := none, friday := none
    saturday := some { start := some "09:30", end_ := some "11:00", isWorking := some true }
    sunday := some { start := some "late", end_ := none, isWorking := some false } }

/-- A request for the event type `evt` whose interval is reversed: 15:30 to 15:00 on
3 June 2024. -/
def createRequestReversed : CreateBookingRequest :=
  { validationErrorsEmpty := true, eventTypeId := some "evt"
    startTime := some "2024-06-03T15:30:00Z", endTime := some "2024-06-03T15:00:00Z"
    inviteeEmail := some "ana@example.com", inviteeName := some "Ana", inviteePhone := none
    notes := none, timezone := none, location := none, questions := none }

/-- Start and end of day for the examples: the date followed by a fixed time. -/
def exampleStartOfDayISO (date : String) : String :=
  date ++ "T00:00:00.000Z"

/-- End of day for the examples. -/
def exampleEndOfDayISO (date : String) : String :=
  date ++ "T23:59:59.999Z"

/-- The method `toLowerCase` on texts of ASCII characters, for the examples. -/
def asciiToLowerCase (text : String) : String :=
  String.mk (text.toList.map Char.toLower)

/-- An event-type input with `minNotice` 0 and `maxBookingDays` 90. -/
def eventTypeDataIntro : EventTypeData :=
  { title := some (JsValue.text "Intro"), userId := "host", duration := some (JsValue.number 30)
    slug := none, minNotice := some (JsValue.number 0)
    maxBookingDays := some (JsValue.number 90) }

/-- An event-type input with an underscore in its title and no slug. -/
def eventTypeDataUnderscore : EventTypeData :=
  { title := some (JsValue.text "Team_Sync 2"), userId := "host"
    duration := some (JsValue.number 30), slug := none, minNotice := none
    maxBookingDays := none }

/-! ## Shared lemmas -/

/-- The three-way disjunction used by every overlap test of the repository is the
half-open overlap test as soon as both intervals are non-empty. -/
theorem threeWay_iff (s1 e1 s2 e2 : Int) (h1 : s1 < e1) (h2 : s2 < e2) :
    ((decide (s1 ≥ s2) && decide (s1 < e2)) ||
      (decide (e1 > s2) && decide (e1 ≤ e2)) ||
      (decide (s1 < s2) && decide (e1 > e2))) = true ↔ s1 < e2 ∧ s2 < e1 := by
  simp only [Bool.or_eq_true, Bool.and_eq_true, decide_eq_true_eq]
  omega

/-- Half-open overlap always makes the three-way disjunction true, also for empty
intervals. -/
theorem threeWay_of_overlap (s1 e1 s2 e2 : Int) (h : s1 < e2 ∧ s2 < e1) :
    ((decide (s1 ≥ s2) && decide (s1 < e2)) ||
      (decide (e1 > s2) && decide (e1 ≤ e2)) ||
      (decide (s1 < s2) && decide (e1 > e2))) = true := by
  simp only [Bool.or_eq_true, Bool.and_eq_true, decide_eq_true_eq]
  omega

/-- The `forEach` of `createBooking` collects exactly the conflicting documents, in order. -/
theorem createBookingIsOverlapping_eq_filter (s e : Int) (snapshot : List Booking) :
    createBookingIsOverlapping s e snapshot = snapshot.filter (createBookingConflict s e) := by
  have key : ∀ (l acc : List Booking),
      l.foldl (fun isOverlapping booking =>
          if createBookingConflict s e booking then isOverlapping ++ [booking]
          else isOverlapping) acc
        = acc ++ l.filter (createBookingConflict s e) := by
    intro l
    induction l with
    | nil => intro acc; simp
    | cons b t ih =>
      intro acc
      by_cases hb : createBookingConflict s e b = true
      · simp [List.foldl_cons, List.filter_cons, hb, ih]
      · simp [List.foldl_cons, List.filter_cons, hb, ih]
  simpa [createBookingIsOverlapping] using key snapshot []

/-- The decision of `createBooking` on a snapshot refuses exactly when some document of the
snapshot conflicts with the proposed interval. -/
theorem createBookingDecision_slotTaken_iff (s e : Int) (snapshot : List Booking) :
    createBookingDecision s e snapshot = Admission.slotTaken ↔
      ∃ b ∈ snapshot, createBookingConflict s e b = true := by
  unfold createBookingDecision
  simp only [createBookingIsOverlapping_eq_filter, gt_iff_lt, List.length_pos]
  constructor
  · intro h
    split at h
    · rename_i hne
      obtain ⟨b, hb⟩ := List.exists_mem_of_ne_nil _ hne
      rw [List.mem_filter] at hb
      exact ⟨b, hb.1, hb.2⟩
    · cases h
  · rintro ⟨b, hb, hc⟩
    have hmem : b ∈ List.filter (createBookingConflict s e) snapshot :=
      List.mem_filter.2 ⟨hb, hc⟩
    rw [if_pos (List.ne_nil_of_mem hmem)]

/-- The availability check of `createBooking` throws for every collection: its query reads
the controller's `BOOKING_STATUS`. -/
theorem createBookingAvailability_throws (coll : List Booking) (uid : String) (s e : Int) :
    createBookingAvailability coll uid s e = Admission.throws := by
  simp [createBookingAvailability, overlappingBookingsSnapshot, bookingController.BOOKING_STATUS]

/-- A request that passes the request validation and names a stored event type is answered
500 by `createBooking`, and nothing is written. -/
theorem createBooking_eventType_found (rt : Runtime) (eventTypes : List (String × EventType))
    (bookings : List BookingDoc) (req : CreateBookingRequest) (eventType : EventType)
    (hvalid : req.validationErrorsEmpty = true)
    (hlookup : eventTypes.lookup (req.eventTypeId.getD "") = some eventType) :
    createBooking rt eventTypes bookings req
      = { response := BookingResponse.serverError, bookings := bookings } := by
  unfold createBooking
  cases hid : truthyString req.eventTypeId
  · simp [hvalid]
  · by_cases hreq : truthyValue eventType.requiresConfirmation = true
    · simp [hvalid, hlookup, initialStatus, bookingController.BOOKING_STATUS, hreq]
    · simp [hvalid, hlookup, initialStatus, bookingController.BOOKING_STATUS, hreq]

/-- Whatever the request, `createBooking` writes nothing and answers with the 400 of the
request validation, with 404 or with 500. -/
theorem createBooking_outcome (rt : Runtime) (eventTypes : List (String × EventType))
    (bookings : List BookingDoc) (req : CreateBookingRequest) :
    (createBooking rt eventTypes bookings req).bookings = bookings ∧
      ((createBooking rt eventTypes bookings req).response = BookingResponse.requestInvalid ∨
        (createBooking rt eventTypes bookings req).response = BookingResponse.notFound ∨
        (createBooking rt eventTypes bookings req).response = BookingResponse.serverError) := by
  cases hv : req.validationErrorsEmpty
  · simp [createBooking, hv]
  · cases hlookup : eventTypes.lookup (req.eventTypeId.getD "") with
    | none =>
      cases hid : truthyString req.eventTypeId
      · simp [createBooking, hv, hid]
      · simp [createBooking, hv, hid, hlookup]
    | some eventType =>
      rw [createBooking_eventType_found rt eventTypes bookings req eventType hv hlookup]
      simp

/-- The handler `updateBookingStatus` answers 500 and writes nothing, whatever the request:
`Object.values(BOOKING_STATUS)` throws before the booking is read. -/
theorem updateBookingStatus_serverError (now : String) (bookings : List BookingDoc)
    (bookingId : String) (user : AuthUser) (status cancellationReason : Option String) :
    updateBookingStatus now bookings bookingId user status cancellationReason
      = { response := BookingResponse.serverError, bookings := bookings } := by
  simp [updateBookingStatus, bookingController.BOOKING_STATUS]

/-- The conflict test of `createBooking` is the half-open overlap test on non-empty
intervals. -/
theorem createBookingConflict_iff (s e : Int) (b : Booking) (hse : s < e)
    (hb : b.startTime < b.endTime) :
    createBookingConflict s e b = true ↔ s < b.endTime ∧ b.startTime < e := by
  unfold createBookingConflict
  exact threeWay_iff s e b.startTime b.endTime hse hb

/-! ## Interval overlap and booking admission -/

/-- C1: for non-empty intervals `[start1, end1)` and `[start2, end2)`,
`doTimeRangesOverlap` is true exactly when `start1 < end2` and `start2 < end1`
(half-open overlap, so intervals that only touch at a boundary do not overlap). -/
theorem doTimeRangesOverlap_iff_halfOpen (start1 end1 start2 end2 : Int)
    (h1 : start1 < end1) (h2 : start2 < end2) :
    doTimeRangesOverlap start1 end1 start2 end2 = true ↔ start1 < end2 ∧ start2 < end1 := by
  unfold doTimeRangesOverlap
  exact threeWay_iff start1 end1 start2 end2 h1 h2

/-- C1, at 14:00 to 14:30 against 14:30 to 15:00 (minutes of the day, in milliseconds):
the intervals touch at 14:30 and the test is false. -/
theorem doTimeRangesOverlap_iff_halfOpen_witness :
    ((50400000 : Int) < 52200000 ∧ (52200000 : Int) < 54000000) ∧
      (doTimeRangesOverlap 50400000 52200000 52200000 54000000 = true ↔
        (50400000 : Int) < 54000000 ∧ (52200000 : Int) < 52200000) ∧
      doTimeRangesOverlap 50400000 52200000 52200000 54000000 = false :=
  ⟨⟨by decide, by decide⟩,
    doTimeRangesOverlap_iff_halfOpen 50400000 52200000 52200000 54000000 (by decide) (by decide),
    by decide⟩

/-- C2 (the code at the failing input): host `host` has the confirmed booking `a`, 14:00 to
14:30 on 3 June 2024, and a request asks for that very interval.  The booking satisfies the
overlap condition of the `forEach`, so the decision of lines 96 to 116 on a snapshot that
holds it is `slot taken`; but the check throws in its query, and the handler, which throws
earlier yet (`initialStatus`), answers 500.  No request at all is answered `slot taken`. -/
theorem createBooking_overlap_answers_serverError :
    (BookingDoc.toBooking exampleRuntime bookingDocA = some bookingViewA ∧
      createBookingConflict 1717423200000 1717425000000 bookingViewA = true ∧
      createBookingDecision 1717423200000 1717425000000 [bookingViewA]
        = Admission.slotTaken) ∧
    createBookingAvailability ([bookingDocA].filterMap (BookingDoc.toBooking exampleRuntime))
        "host" 1717423200000 1717425000000 = Admission.throws ∧
    createBooking exampleRuntime [("evt", eventTypeSixty)] [bookingDocA] createRequest1400
      = { response := BookingResponse.serverError, bookings := [bookingDocA] } ∧
    ∀ (rt : Runtime) (eventTypes : List (String × EventType)) (bookings : List BookingDoc)
      (req : CreateBookingRequest),
      (createBooking rt eventTypes bookings req).response ≠ BookingResponse.slotTaken := by
  refine ⟨⟨by decide, by decide, by decide⟩, by decide, by decide, ?_⟩
  intro rt eventTypes bookings req h
  rcases (createBooking_outcome rt eventTypes bookings req).2 with h1 | h1 | h1 <;>
    rw [h1] at h <;> cases h

/-- C3 (the code at the failing input): the confirmed booking `a`, 14:00 to 14:30, is the
only existing booking.  The request for 14:30 to 15:00 only touches it (the overlap condition
is false, and the decision of lines 96 to 116 on the snapshot would be to accept), yet
`createBooking` answers 500 and stores nothing; the request for the identical interval gets
the same 500, not the refusal `slot taken`. -/
theorem createBooking_boundary_touch_answers_serverError :
    (createBookingConflict 1717425000000 1717426800000 bookingViewA = false ∧
      createBookingDecision 1717425000000 1717426800000 [bookingViewA] = Admission.accept) ∧
    createBooking exampleRuntime [("evt", eventTypeSixty)] [bookingDocA] createRequest1430
      = { response := BookingResponse.serverError, bookings := [bookingDocA] } ∧
    (createBooking exampleRuntime [("evt", eventTypeSixty)] [bookingDocA]
        createRequest1400).response = BookingResponse.serverError ∧
    createBookingAvailability [bookingViewA] "host" 1717425000000 1717426800000
      ≠ Admission.accept := by
  decide

/-- C4: the availability check of `createBooking` gives the same outcome for any two
collections of existing bookings that are permutations of each other; and its decision
`isOverlapping.length > 0` (lines 96 to 116) is the same for any two snapshots that are
permutations of each other. -/
theorem createBooking_permutation_invariant (existing existing' : List Booking)
    (hperm : existing.Perm existing') (userId : String) (startTime endTime : Int) :
    createBookingAvailability existing userId startTime endTime
      = createBookingAvailability existing' userId startTime endTime ∧
    createBookingDecision startTime endTime existing
      = createBookingDecision startTime endTime existing' := by
  refine ⟨?_, ?_⟩
  · rw [createBookingAvailability_throws, createBookingAvailability_throws]
  · unfold createBookingDecision
    simp only [createBookingIsOverlapping_eq_filter, (hperm.filter _).length_eq]

/-- C4, at the two orders of a confirmed and a cancelled booking: the check has the same
outcome for both; and at the two orders of a snapshot of two confirmed bookings: both refuse
the proposal 14:15 to 14:45. -/
theorem createBooking_permutation_invariant_witness :
    createBookingAvailability [bookingConfirmed1400, bookingCancelled1415] "host"
        51300000 53100000
      = createBookingAvailability [bookingCancelled1415, bookingConfirmed1400] "host"
        51300000 53100000 ∧
    createBookingDecision 51300000 53100000 [bookingConfirmed1400, bookingConfirmed1000]
      = createBookingDecision 51300000 53100000 [bookingConfirmed1000, bookingConfirmed1400] ∧
    createBookingDecision 51300000 53100000 [bookingConfirmed1000, bookingConfirmed1400]
      = Admission.slotTaken :=
  ⟨(createBooking_permutation_invariant [bookingConfirmed1400, bookingCancelled1415]
      [bookingCancelled1415, bookingConfirmed1400] (List.Perm.swap _ _ _) "host"
      51300000 53100000).1,
    (createBooking_permutation_invariant [bookingConfirmed1400, bookingConfirmed1000]
      [bookingConfirmed1000, bookingConfirmed1400] (List.Perm.swap _ _ _) "host"
      51300000 53100000).2,
    by decide⟩

/-! ## The slot loop -/

/-- Induction along the slot loop: a property of the loop variable `slotStart` holds
everywhere once it holds where the loop condition fails and is carried back over one
15-minute step. -/
theorem slotStart_induction (endTime : Int) (P : Int → Prop)
    (hstop : ∀ s, ¬ s < endTime → P s)
    (hstep : ∀ s, s < endTime → P (s + 15 * msPerMinute) → P s) : ∀ s, P s := by
  have key : ∀ (n : Nat) (s : Int), (endTime - s).toNat ≤ n → P s := by
    intro n
    induction n with
    | zero =>
      intro s hs
      exact hstop s (by omega)
    | succ n ih =>
      intro s hs
      by_cases hlt : s < endTime
      · exact hstep s hlt (ih _ (by simp only [msPerMinute]; omega))
      · exact hstop s hlt
  intro s
  exact key _ s (le_refl _)

/-- The loop only appends to the array it is given. -/
theorem slotLoop_acc (e d bb ba : Int) (bs : List Booking) (s : Int) :
    ∀ acc : List Slot, slotLoop e d bb ba bs acc s = acc ++ slotLoop e d bb ba bs [] s := by
  refine slotStart_induction e (fun s => ∀ acc : List Slot,
    slotLoop e d bb ba bs acc s = acc ++ slotLoop e d bb ba bs [] s) ?_ ?_ s
  · intro s hs acc
    rw [slotLoop.eq_1 e d bb ba bs acc s, slotLoop.eq_1 e d bb ba bs [] s]
    simp [hs]
  · intro s hs ih acc
    rw [slotLoop.eq_1 e d bb ba bs acc s, slotLoop.eq_1 e d bb ba bs [] s]
    simp only [hs, if_true]
    by_cases hbreak : s + d * msPerMinute > e
    · simp [hbreak]
    · simp only [hbreak, if_false]
      by_cases hov : bs.any (slotConflict bb ba s (s + d * msPerMinute)) = true
      · simp only [hov, Bool.not_true, Bool.false_eq_true, if_false]
        exact ih acc
      · simp only [hov, Bool.not_false, Bool.not_eq_true, if_true, List.nil_append]
        rw [ih (acc ++ _), ih [_], List.append_assoc]

/-- One iteration of the loop, started on the empty array. -/
theorem slotLoop_nil (e d bb ba : Int) (bs : List Booking) (s : Int) :
    slotLoop e d bb ba bs [] s =
      if s < e then
        if s + d * msPerMinute > e then []
        else
          (if bs.any (slotConflict bb ba s (s + d * msPerMinute)) then []
            else [{ start := s, end_ := s + d * msPerMinute }]) ++
          slotLoop e d bb ba bs [] (s + 15 * msPerMinute)
      else [] := by
  rw [slotLoop.eq_1 e d bb ba bs [] s]
  by_cases hs : s < e
  · simp only [hs, if_true]
    by_cases hbreak : s + d * msPerMinute > e
    · simp [hbreak]
    · simp only [hbreak, if_false]
      rw [slotLoop_acc]
      by_cases hov : bs.any (slotConflict bb ba s (s + d * msPerMinute)) = true
      · simp [hov]
      · simp [hov]
  · simp [hs]

/-- Soundness of the loop: every emitted slot is a grid candidate inside the window that
conflicts with no booking. -/
theorem slotLoop_mem_grid (e d bb ba : Int) (bs : List Booking) (s : Int) :
    ∀ x ∈ slotLoop e d bb ba bs [] s,
      ∃ k : Nat, x.start = s + 15 * (k : Int) * msPerMinute ∧
        x.end_ = x.start + d * msPerMinute ∧ x.start < e ∧ x.end_ ≤ e ∧
        bs.any (slotConflict bb ba x.start x.end_) = false := by
  refine slotStart_induction e (fun s => ∀ x ∈ slotLoop e d bb ba bs [] s,
      ∃ k : Nat, x.start = s + 15 * (k : Int) * msPerMinute ∧
        x.end_ = x.start + d * msPerMinute ∧ x.start < e ∧ x.end_ ≤ e ∧
        bs.any (slotConflict bb ba x.start x.end_) = false) ?_ ?_ s
  · intro s hs x hx
    rw [slotLoop_nil, if_neg hs] at hx
    cases hx
  · intro s hs ih x hx
    rw [slotLoop_nil, if_pos hs] at hx
    by_cases hbreak : s + d * msPerMinute > e
    · rw [if_pos hbreak] at hx
      cases hx
    · rw [if_neg hbreak, List.mem_append] at hx
      rcases hx with hx | hx
      · by_cases hov : bs.any (slotConflict bb ba s (s + d * msPerMinute)) = true
        · rw [if_pos hov] at hx
          cases hx
        · rw [if_neg hov, List.mem_singleton] at hx
          subst hx
          refine ⟨0, by simp, rfl, hs, by simpa using hbreak, by simpa using hov⟩
      · obtain ⟨k, hk, hrest⟩ := ih x hx
        refine ⟨k + 1, ?_, hrest⟩
        rw [hk]
        push_cast
        ring

/-- Completeness of the loop: every grid candidate that starts before the window end, ends
inside the window and conflicts with no booking is emitted. -/
theorem slotLoop_grid_mem (e d bb ba : Int) (bs : List Booking) (s : Int) :
    ∀ (k : Nat) (x : Slot), x.start = s + 15 * (k : Int) * msPerMinute →
      x.end_ = x.start + d * msPerMinute → x.start < e → x.end_ ≤ e →
      bs.any (slotConflict bb ba x.start x.end_) = false →
      x ∈ slotLoop e d bb ba bs [] s := by
  refine slotStart_induction e (fun s => ∀ (k : Nat) (x : Slot),
      x.start = s + 15 * (k : Int) * msPerMinute →
      x.end_ = x.start + d * msPerMinute → x.start < e → x.end_ ≤ e →
      bs.any (slotConflict bb ba x.start x.end_) = false →
      x ∈ slotLoop e d bb ba bs [] s) ?_ ?_ s
  · intro s hs k x hstart _ hlt _ _
    exfalso
    simp only [msPerMinute] at hstart
    omega
  · intro s hs ih k x hstart hend hlt hle hfree
    have hbreak : ¬ s + d * msPerMinute > e := by
      simp only [msPerMinute] at hstart hend ⊢
      omega
    rw [slotLoop_nil, if_pos hs, if_neg hbreak, List.mem_append]
    cases k with
    | zero =>
      left
      have hxs : x.start = s := by simpa using hstart
      have hx : x = { start := s, end_ := s + d * msPerMinute } := by
        cases x
        simp only [Slot.mk.injEq]
        simp only at hxs hend
        exact ⟨hxs, by rw [hend, hxs]⟩
      rw [hxs, hend, hxs] at hfree
      rw [hfree, hx]
      simp
    | succ k =>
      right
      refine ih k x ?_ hend hlt hle hfree
      rw [hstart]
      push_cast
      ring

/-- Order of the loop output: between two neighbours of the output lie only grid candidates
that a booking conflict removed, and the same holds between the loop start and the first
emitted slot. -/
theorem slotLoop_chain (e d bb ba : Int) (bs : List Booking) (s : Int) :
    List.Chain' (fun a b : Slot => ∃ m : Nat, 0 < m ∧
        b.start = a.start + 15 * (m : Int) * msPerMinute ∧
        ∀ j : Nat, 0 < j → j < m →
          bs.any (slotConflict bb ba (a.start + 15 * (j : Int) * msPerMinute)
            (a.start + 15 * (j : Int) * msPerMinute + d * msPerMinute)) = true)
      (slotLoop e d bb ba bs [] s) ∧
    ∀ x ∈ (slotLoop e d bb ba bs [] s).head?, ∃ k : Nat,
      x.start = s + 15 * (k : Int) * msPerMinute ∧
      ∀ j : Nat, j < k →
        bs.any (slotConflict bb ba (s + 15 * (j : Int) * msPerMinute)
          (s + 15 * (j : Int) * msPerMinute + d * msPerMinute)) = true := by
  refine slotStart_induction e (fun s =>
    List.Chain' (fun a b : Slot => ∃ m : Nat, 0 < m ∧
        b.start = a.start + 15 * (m : Int) * msPerMinute ∧
        ∀ j : Nat, 0 < j → j < m →
          bs.any (slotConflict bb ba (a.start + 15 * (j : Int) * msPerMinute)
            (a.start + 15 * (j : Int) * msPerMinute + d * msPerMinute)) = true)
      (slotLoop e d bb ba bs [] s) ∧
    ∀ x ∈ (slotLoop e d bb ba bs [] s).head?, ∃ k : Nat,
      x.start = s + 15 * (k : Int) * msPerMinute ∧
      ∀ j : Nat, j < k →
        bs.any (slotConflict bb ba (s + 15 * (j : Int) * msPerMinute)
          (s + 15 * (j : Int) * msPerMinute + d * msPerMinute)) = true) ?_ ?_ s
  · intro s hs
    rw [slotLoop_nil, if_neg hs]
    exact ⟨List.chain'_nil, by simp⟩
  · intro s hs ih
    obtain ⟨ihc, ihh⟩ := ih
    have shift : ∀ j : Nat, s + 15 * msPerMinute + 15 * (j : Int) * msPerMinute
        = s + 15 * ((j + 1 : Nat) : Int) * msPerMinute := by
      intro j
      push_cast
      ring
    rw [slotLoop_nil, if_pos hs]
    by_cases hbreak : s + d * msPerMinute > e
    · rw [if_pos hbreak]
      exact ⟨List.chain'_nil, by simp⟩
    · rw [if_neg hbreak]
      by_cases hov : bs.any (slotConflict bb ba s (s + d * msPerMinute)) = true
      · rw [if_pos hov, List.nil_append]
        refine ⟨ihc, ?_⟩
        intro x hx
        obtain ⟨k, hk, hall⟩ := ihh x hx
        refine ⟨k + 1, by rw [hk, shift], ?_⟩
        intro j hj
        cases j with
        | zero => simpa using hov
        | succ j =>
          rw [← shift]
          exact hall j (by omega)
      · rw [if_neg hov, List.singleton_append]
        refine ⟨List.chain'_cons'.2 ⟨?_, ihc⟩, ?_⟩
        · intro y hy
          obtain ⟨k, hk, hall⟩ := ihh y hy
          refine ⟨k + 1, by omega, by rw [hk, shift], ?_⟩
          intro j hj0 hj
          cases j with
          | zero => omega
          | succ j =>
            show bs.any (slotConflict bb ba (s + 15 * ((j + 1 : Nat) : Int) * msPerMinute)
              (s + 15 * ((j + 1 : Nat) : Int) * msPerMinute + d * msPerMinute)) = true
            rw [← shift]
            exact hall j (by omega)
        · intro x hx
          simp only [List.head?_cons, Option.mem_def, Option.some.injEq] at hx
          subst hx
          exact ⟨0, by simp, by intro j hj; omega⟩

/-- The loop output is strictly ascending by start. -/
theorem slotLoop_pairwise (e d bb ba : Int) (bs : List Booking) (s : Int) :
    List.Pairwise (fun a b : Slot => a.start < b.start) (slotLoop e d bb ba bs [] s) := by
  refine slotStart_induction e (fun s =>
    List.Pairwise (fun a b : Slot => a.start < b.start) (slotLoop e d bb ba bs [] s)) ?_ ?_ s
  · intro s hs
    rw [slotLoop_nil, if_neg hs]
    exact List.Pairwise.nil
  · intro s hs ih
    rw [slotLoop_nil, if_pos hs]
    by_cases hbreak : s + d * msPerMinute > e
    · rw [if_pos hbreak]
      exact List.Pairwise.nil
    · rw [if_neg hbreak]
      by_cases hov : bs.any (slotConflict bb ba s (s + d * msPerMinute)) = true
      · rw [if_pos hov, List.nil_append]
        exact ih
      · rw [if_neg hov, List.singleton_append, List.pairwise_cons]
        refine ⟨?_, ih⟩
        intro y hy
        obtain ⟨k, hk, -⟩ := slotLoop_mem_grid e d bb ba bs _ y hy
        simp only [msPerMinute] at hk ⊢
        omega

/-- Without bookings the loop commutes with a translation of the time axis. -/
theorem slotLoop_translate (t e d bb ba : Int) (s : Int) :
    slotLoop (t + e) d bb ba [] [] (t + s) =
      (slotLoop e d bb ba [] [] s).map
        (fun x => { start := t + x.start, end_ := t + x.end_ }) := by
  refine slotStart_induction e (fun s => slotLoop (t + e) d bb ba [] [] (t + s) =
      (slotLoop e d bb ba [] [] s).map
        (fun x => { start := t + x.start, end_ := t + x.end_ })) ?_ ?_ s
  · intro s hs
    rw [slotLoop_nil, slotLoop_nil e, if_neg hs, if_neg (by omega)]
    rfl
  · intro s hs ih
    rw [slotLoop_nil, slotLoop_nil e, if_pos hs, if_pos (by omega)]
    by_cases hbreak : s + d * msPerMinute > e
    · rw [if_pos hbreak, if_pos (by omega)]
      rfl
    · rw [if_neg hbreak, if_neg (by omega)]
      have hshift : t + s + 15 * msPerMinute = t + (s + 15 * msPerMinute) := by ring
      rw [hshift, ih]
      simp [add_assoc]

/-- A slot that the conflict test lets through has no half-open overlap with the booking
widened by the buffers. -/
theorem slotConflict_false_no_overlap (bb ba slotStart slotEnd : Int) (b : Booking)
    (h : slotConflict bb ba slotStart slotEnd b = false) :
    ¬ (slotStart < b.endTime + ba * msPerMinute ∧ b.startTime - bb * msPerMinute < slotEnd) := by
  intro hov
  have ht := threeWay_of_overlap slotStart slotEnd (b.startTime - bb * msPerMinute)
    (b.endTime + ba * msPerMinute) hov
  unfold slotConflict at h
  rw [ht] at h
  cases h

/-- On non-empty intervals, a slot without half-open overlap with the widened booking passes
the conflict test. -/
theorem slotConflict_false_of_no_overlap (bb ba slotStart slotEnd : Int) (b : Booking)
    (hslot : slotStart < slotEnd)
    (hb : b.startTime - bb * msPerMinute < b.endTime + ba * msPerMinute)
    (h : ¬ (slotStart < b.endTime + ba * msPerMinute ∧ b.startTime - bb * msPerMinute < slotEnd)) :
    slotConflict bb ba slotStart slotEnd b = false := by
  cases hc : slotConflict bb ba slotStart slotEnd b
  · rfl
  · exfalso
    unfold slotConflict at hc
    exact h ((threeWay_iff slotStart slotEnd _ _ hslot hb).1 hc)

/-! ## Slot generation -/

/-- C5: for a request that names an existing event type and a date, when the host's schedule
has no entry for the weekday of the date, or the entry has `isWorking` false or unset,
`getAvailableTimeSlots` answers HTTP 200 with the empty list, whatever the duration, the
buffers and the bookings are. -/
theorem getAvailableTimeSlots_nonWorking_empty (cal : Calendar) (db : Store)
    (eventTypeId date : String) (timezone : Option String) (eventType : EventType)
    (hid : eventTypeId ≠ "") (hdate : date ≠ "")
    (hevent : db.eventTypes.lookup eventTypeId = some eventType)
    (hday :
      (hostAvailability db.availability eventType.userId).schedule.get
          (cal.weekdayName date (userTimezoneOf timezone eventType)) = none ∨
      ∃ daySchedule,
        (hostAvailability db.availability eventType.userId).schedule.get
          (cal.weekdayName date (userTimezoneOf timezone eventType)) = some daySchedule ∧
        (daySchedule.isWorking = some false ∨ daySchedule.isWorking = none)) :
    getAvailableTimeSlots cal db (some eventTypeId) (some date) timezone = SlotsResponse.ok [] := by
  unfold getAvailableTimeSlots
  have hguard : (!truthyString (some eventTypeId) || !truthyString (some date)) = false := by
    simp [truthyString, hid, hdate]
  simp only [hguard, Bool.false_eq_true, if_false, Option.getD_some, hevent]
  rcases hday with hnone | ⟨daySchedule, hsome, hw⟩
  · rw [hnone]
  · rw [hsome]
    rcases hw with hw | hw <;> simp [hw]

/-- C5, Scenario D: the host has no availability document, so the default schedule applies,
in which Saturday has `isWorking` false; a 60-minute event type gets the empty list. -/
theorem getAvailableTimeSlots_nonWorking_empty_witness :
    getAvailableTimeSlots calendarSaturday storeDefault (some "evt") (some "2024-06-01") none
      = SlotsResponse.ok [] :=
  getAvailableTimeSlots_nonWorking_empty calendarSaturday storeDefault "evt" "2024-06-01" none
    eventTypeSixty (by decide) (by decide) (by decide)
    (Or.inr ⟨{ start := some "09:00", end_ := some "13:00", isWorking := some false },
      by decide, Or.inl rfl⟩)

/-- C6: every slot emitted by the slot loop of `getAvailableTimeSlots` for the window
`[startTime, endTime]` lasts exactly `duration` minutes, does not start before the window
start and does not end after the window end. -/
theorem generateSlots_duration_and_window (startTime endTime duration bufferBefore bufferAfter : Int)
    (existingBookings : List Booking) (slot : Slot)
    (hslot : slot ∈ generateSlots startTime endTime duration bufferBefore bufferAfter
      existingBookings) :
    slot.end_ - slot.start = duration * msPerMinute ∧ startTime ≤ slot.start ∧
      slot.end_ ≤ endTime := by
  obtain ⟨k, hk, hend, -, hle, -⟩ :=
    slotLoop_mem_grid endTime duration bufferBefore bufferAfter existingBookings startTime slot hslot
  refine ⟨by omega, ?_, hle⟩
  simp only [msPerMinute] at hk
  omega

/-- C6, in Scenario B (window 09:00 to 17:00, 60 minutes, buffers 15 and 15, one booking
10:00 to 10:30): the slot 10:45 to 11:45 is emitted, lasts 60 minutes and lies in the
window. -/
theorem generateSlots_duration_and_window_witness :
    ({ start := 38700000, end_ := 42300000 } : Slot) ∈
        generateSlots 32400000 61200000 60 15 15 [bookingConfirmed1000] ∧
      ((42300000 : Int) - 38700000 = 60 * msPerMinute ∧ (32400000 : Int) ≤ 38700000 ∧
        (42300000 : Int) ≤ 61200000) :=
  ⟨by simp [generateSlots, slotLoop, slotConflict, msPerMinute, bookingConfirmed1000],
    generateSlots_duration_and_window 32400000 61200000 60 15 15 [bookingConfirmed1000]
      { start := 38700000, end_ := 42300000 }
      (by simp [generateSlots, slotLoop, slotConflict, msPerMinute, bookingConfirmed1000])⟩

/-- C7: the slots emitted by the slot loop of `getAvailableTimeSlots` lie on the 15-minute
grid anchored at the window start (every start is `startTime` plus `15 * k` minutes for a
natural `k`), in strictly ascending order of start; two neighbours of the output differ by
`15 * m` minutes for a positive natural `m`, every grid candidate strictly between them
was removed by a booking conflict, and so they differ by exactly 15 minutes when no
candidate between them was removed.  The step is 15 minutes for every duration. -/
theorem generateSlots_fifteen_minute_grid (startTime endTime duration bufferBefore bufferAfter : Int)
    (existingBookings : List Booking) :
    (∀ slot ∈ generateSlots startTime endTime duration bufferBefore bufferAfter existingBookings,
      ∃ k : Nat, slot.start = startTime + 15 * (k : Int) * msPerMinute) ∧
    List.Pairwise (fun a b : Slot => a.start < b.start)
      (generateSlots startTime endTime duration bufferBefore bufferAfter existingBookings) ∧
    List.Chain' (fun a b : Slot => ∃ m : Nat, 0 < m ∧
        b.start = a.start + 15 * (m : Int) * msPerMinute ∧
        (∀ j : Nat, 0 < j → j < m →
          existingBookings.any (slotConflict bufferBefore bufferAfter
            (a.start + 15 * (j : Int) * msPerMinute)
            (a.start + 15 * (j : Int) * msPerMinute + duration * msPerMinute)) = true) ∧
        ((∀ j : Nat, 0 < j → j < m →
          existingBookings.any (slotConflict bufferBefore bufferAfter
            (a.start + 15 * (j : Int) * msPerMinute)
            (a.start + 15 * (j : Int) * msPerMinute + duration * msPerMinute)) = false) →
          b.start = a.start + 15 * msPerMinute))
      (generateSlots startTime endTime duration bufferBefore bufferAfter existingBookings) := by
  refine ⟨?_, slotLoop_pairwise _ _ _ _ _ _, ?_⟩
  · intro slot hslot
    obtain ⟨k, hk, -⟩ := slotLoop_mem_grid endTime duration bufferBefore bufferAfter
      existingBookings startTime slot hslot
    exact ⟨k, hk⟩
  · refine List.Chain'.imp ?_
      (slotLoop_chain endTime duration bufferBefore bufferAfter existingBookings startTime).1
    rintro a b ⟨m, hm, hstep, hall⟩
    refine ⟨m, hm, hstep, hall, ?_⟩
    intro hnone
    by_cases h1 : m = 1
    · subst h1
      simpa using hstep
    · have htrue := hall 1 (by omega) (by omega)
      have hfalse := hnone 1 (by omega) (by omega)
      rw [htrue] at hfalse
      cases hfalse

/-- C8: no slot emitted by the slot loop of `getAvailableTimeSlots` overlaps (half-open) an
existing booking widened to `[startTime - bufferBefore, endTime + bufferAfter)`. -/
theorem generateSlots_avoids_buffered_bookings
    (startTime endTime duration bufferBefore bufferAfter : Int)
    (existingBookings : List Booking) (slot : Slot)
    (hslot : slot ∈ generateSlots startTime endTime duration bufferBefore bufferAfter
      existingBookings)
    (booking : Booking) (hbooking : booking ∈ existingBookings) :
    ¬ (slot.start < booking.endTime + bufferAfter * msPerMinute ∧
        booking.startTime - bufferBefore * msPerMinute < slot.end_) := by
  obtain ⟨k, -, -, -, -, hfree⟩ :=
    slotLoop_mem_grid endTime duration bufferBefore bufferAfter existingBookings startTime slot hslot
  rw [List.any_eq_false] at hfree
  exact slotConflict_false_no_overlap _ _ _ _ booking (by simpa using hfree booking hbooking)

/-- C8, Scenario B (window 09:00 to 17:00, 60 minutes, one booking 10:00 to 10:30, buffers
15 and 15): the emitted slot 10:45 to 11:45 does not meet `[09:45, 10:45)`, and none of the
candidates starting 09:00, 09:15, 09:30, 09:45, 10:00, 10:15 and 10:30 is emitted. -/
theorem generateSlots_avoids_buffered_bookings_witness :
    ({ start := 38700000, end_ := 42300000 } : Slot) ∈
        generateSlots 32400000 61200000 60 15 15 [bookingConfirmed1000] ∧
      ¬ ((38700000 : Int) < 37800000 + 15 * msPerMinute ∧
          (36000000 : Int) - 15 * msPerMinute < 42300000) ∧
      ∀ k : Nat, k < 7 →
        ({ start := 32400000 + 900000 * (k : Int), end_ := 36000000 + 900000 * (k : Int) } : Slot) ∉
          generateSlots 32400000 61200000 60 15 15 [bookingConfirmed1000] :=
  ⟨by simp [generateSlots, slotLoop, slotConflict, msPerMinute, bookingConfirmed1000],
    generateSlots_avoids_buffered_bookings 32400000 61200000 60 15 15 [bookingConfirmed1000]
      { start := 38700000, end_ := 42300000 }
      (by simp [generateSlots, slotLoop, slotConflict, msPerMinute, bookingConfirmed1000])
      bookingConfirmed1000 (List.mem_singleton.2 rfl),
    fun k hk hmem =>
      generateSlots_avoids_buffered_bookings 32400000 61200000 60 15 15 [bookingConfirmed1000]
        _ hmem bookingConfirmed1000 (List.mem_singleton.2 rfl)
        (by simp only [bookingConfirmed1000, msPerMinute]; omega)⟩

/-- C9: completeness of the slot loop of `getAvailableTimeSlots`.  For a positive duration,
non-negative buffers and bookings with `startTime < endTime`, every candidate that starts
at the window start plus `15 * k` minutes for a natural `k`, ends at or before the window
end and has no half-open overlap with any booking widened by the buffers is emitted. -/
theorem generateSlots_complete (startTime endTime duration bufferBefore bufferAfter : Int)
    (existingBookings : List Booking) (hduration : 0 < duration)
    (hbefore : 0 ≤ bufferBefore) (hafter : 0 ≤ bufferAfter)
    (hint : ∀ b ∈ existingBookings, b.startTime < b.endTime) (k : Nat)
    (hfit : startTime + 15 * (k : Int) * msPerMinute + duration * msPerMinute ≤ endTime)
    (hfree : ∀ b ∈ existingBookings,
      ¬ (startTime + 15 * (k : Int) * msPerMinute < b.endTime + bufferAfter * msPerMinute ∧
          b.startTime - bufferBefore * msPerMinute
            < startTime + 15 * (k : Int) * msPerMinute + duration * msPerMinute)) :
    ({ start := startTime + 15 * (k : Int) * msPerMinute,
       end_ := startTime + 15 * (k : Int) * msPerMinute + duration * msPerMinute } : Slot) ∈
      generateSlots startTime endTime duration bufferBefore bufferAfter existingBookings := by
  have hdur : 0 < duration * msPerMinute := by simp only [msPerMinute]; omega
  have hbb : 0 ≤ bufferBefore * msPerMinute := by simp only [msPerMinute]; omega
  have hba : 0 ≤ bufferAfter * msPerMinute := by simp only [msPerMinute]; omega
  refine slotLoop_grid_mem endTime duration bufferBefore bufferAfter existingBookings startTime k _
    rfl rfl ?_ hfit ?_
  · show startTime + 15 * (k : Int) * msPerMinute < endTime
    omega
  · rw [List.any_eq_false]
    intro b hb
    have hbi := hint b hb
    rw [slotConflict_false_of_no_overlap _ _ _ _ b (by show _ < _; omega) (by omega) (hfree b hb)]
    decide

/-- C9, Scenario B: the candidate at 09:00 plus 7 steps, 10:45 to 11:45, ends before 17:00
and does not meet `[09:45, 10:45)`, so it is emitted. -/
theorem generateSlots_complete_witness :
    ({ start := 32400000 + 15 * ((7 : Nat) : Int) * msPerMinute,
       end_ := 32400000 + 15 * ((7 : Nat) : Int) * msPerMinute + 60 * msPerMinute } : Slot) ∈
      generateSlots 32400000 61200000 60 15 15 [bookingConfirmed1000] :=
  generateSlots_complete 32400000 61200000 60 15 15 [bookingConfirmed1000]
    (by decide) (by decide) (by decide) (by decide) 7 (by decide) (by decide)

/-- C10: Scenario A.  With a working window 09:00 to 17:00 of any day (`midnight` is the
instant of 00:00 of that day), a duration of 60 minutes and no existing booking, the first
slot emitted by the slot loop of `getAvailableTimeSlots` is 09:00 to 10:00 and the last one is
16:00 to 17:00. -/
theorem generateSlots_scenarioA_first_last (midnight bufferBefore bufferAfter : Int) :
    (generateSlots (midnight + 32400000) (midnight + 61200000) 60 bufferBefore bufferAfter
        []).head? = some { start := midnight + 32400000, end_ := midnight + 36000000 } ∧
    (generateSlots (midnight + 32400000) (midnight + 61200000) 60 bufferBefore bufferAfter
        []).getLast? = some { start := midnight + 57600000, end_ := midnight + 61200000 } := by
  unfold generateSlots
  rw [slotLoop_translate]
  have hlist : slotLoop 61200000 60 bufferBefore bufferAfter [] [] 32400000 =
      (List.range 29).map fun k : Nat =>
        { start := 32400000 + 900000 * (k : Int), end_ := 36000000 + 900000 * (k : Int) } := by
    simp [slotLoop, msPerMinute, List.range, List.range.loop]
  rw [hlist]
  constructor
  · simp [List.range, List.range.loop]
  · simp [List.range, List.range.loop, List.getLast?]

/-- C11 (as stated): in Scenario A the slot loop does not emit 33 slots. -/
theorem generateSlots_scenarioA_not_33 :
    (generateSlots 32400000 61200000 60 0 0 []).length ≠ 33 := by
  simp [generateSlots, slotLoop, msPerMinute]

/-- C11 (amended): with a working window 09:00 to 17:00 of any day, a duration of 60 minutes
and no existing booking, the slot loop of `getAvailableTimeSlots` emits 29 slots in total
(the starts 09:00, 09:15, and so on up to 16:00). -/
theorem generateSlots_scenarioA_count (midnight bufferBefore bufferAfter : Int) :
    (generateSlots (midnight + 32400000) (midnight + 61200000) 60 bufferBefore bufferAfter
        []).length = 29 := by
  unfold generateSlots
  rw [slotLoop_translate, List.length_map]
  simp [slotLoop, msPerMinute]

/-- C12 (as stated): the host's availability has Monday 09:00 to 10:00 as working day and an
exception that marks 3 June 2024, a Monday, as not working; `getAvailableTimeSlots` still
answers with the slot 09:00 to 10:00 of that date, taken from `schedule.monday`. -/
theorem getAvailableTimeSlots_exception_not_applied :
    availabilityWithException.exceptions =
        [{ date := "2024-06-03"
           day := { start := none, end_ := none, isWorking := some false } }] ∧
      getAvailableTimeSlots calendarMonday storeWithException (some "evt") (some "2024-06-03")
          none
        = SlotsResponse.ok [{ start := 1717405200000, end_ := 1717408800000 }] := by
  refine ⟨rfl, ?_⟩
  simp [getAvailableTimeSlots, truthyString, storeWithException, List.lookup, eventTypeSixty,
    hostAvailability, availabilityWithException, calendarMonday, Schedule.get, userTimezoneOf,
    orString, dayBookings, generateSlots, slotLoop, msPerMinute]

/-- C12 (amended): `getAvailableTimeSlots` never reads `exceptions`.  Replacing the
exceptions of every availability document by anything else leaves its answer unchanged, so
the working window always comes from `schedule[weekday]`. -/
theorem getAvailableTimeSlots_ignores_exceptions (cal : Calendar) (db : Store)
    (eventTypeId date timezone : Option String)
    (exceptionsOf : Availability → List DateException) :
    getAvailableTimeSlots cal
        { db with
          availability :=
            db.availability.map fun doc => { doc with exceptions := exceptionsOf doc } }
        eventTypeId date timezone
      = getAvailableTimeSlots cal db eventTypeId date timezone := by
  have hsched : ∀ (coll : List Availability) (userId : String),
      (hostAvailability
          (coll.map fun doc => { doc with exceptions := exceptionsOf doc }) userId).schedule
        = (hostAvailability coll userId).schedule := by
    intro coll userId
    induction coll with
    | nil => rfl
    | cons doc rest ih =>
      unfold hostAvailability at ih ⊢
      simp only [List.map_cons, List.find?_cons]
      by_cases hdoc : (doc.userId == userId) = true
      · simp [hdoc]
      · simp only [hdoc]
        exact ih
  unfold getAvailableTimeSlots
  simp only [hsched]

/-! ## Booking handlers -/

/-- A document found by `getBookingDoc` has the id that was asked for. -/
theorem getBookingDoc_id (bookings : List BookingDoc) (bookingId : String) (booking : BookingDoc)
    (h : getBookingDoc bookings bookingId = some booking) : booking.id = bookingId := by
  unfold getBookingDoc at h
  have := List.find?_some h
  simpa using this

/-- Reading a document back after an update that keeps ids gives the patched document. -/
theorem getBookingDoc_update (bookings : List BookingDoc) (bookingId : String)
    (patch : BookingDoc → BookingDoc) (hid : ∀ doc, (patch doc).id = doc.id)
    (booking : BookingDoc) (h : getBookingDoc bookings bookingId = some booking) :
    getBookingDoc (updateBookingDoc bookings bookingId patch) bookingId = some (patch booking) := by
  unfold getBookingDoc updateBookingDoc at *
  induction bookings with
  | nil => simp at h
  | cons doc rest ih =>
    simp only [List.map_cons, List.find?_cons] at h ⊢
    cases hdoc : (doc.id == bookingId)
    · simp only [hdoc, Bool.false_eq_true, if_false] at h ⊢
      exact ih h
    · simp only [hdoc, if_true] at h ⊢
      have hp : ((patch doc).id == bookingId) = true := by rw [hid]; exact hdoc
      simp only [hp]
      cases h
      rfl

/-- An update changes no other document and removes none. -/
theorem updateBookingDoc_length (bookings : List BookingDoc) (bookingId : String)
    (patch : BookingDoc → BookingDoc) :
    (updateBookingDoc bookings bookingId patch).length = bookings.length := by
  simp [updateBookingDoc]

/-- C13 (the code at the failing input, and at every other): for every event type, whatever
its `requiresConfirmation`, and every request that passes the request validation and names
it, the expression `initialStatus` of `createBooking` throws, the handler answers 500, the
collection is as it was, and no booking, `pending` or `confirmed`, is created. -/
theorem createBooking_initial_status_throws (rt : Runtime)
    (eventTypes : List (String × EventType)) (bookings : List BookingDoc)
    (req : CreateBookingRequest) (eventType : EventType)
    (hvalid : req.validationErrorsEmpty = true)
    (hlookup : eventTypes.lookup (req.eventTypeId.getD "") = some eventType) :
    initialStatus eventType = none ∧
    createBooking rt eventTypes bookings req
      = { response := BookingResponse.serverError, bookings := bookings } ∧
    ∀ newBooking,
      (createBooking rt eventTypes bookings req).response
        ≠ BookingResponse.created newBooking := by
  have hfound := createBooking_eventType_found rt eventTypes bookings req eventType hvalid hlookup
  refine ⟨?_, hfound, ?_⟩
  · unfold initialStatus
    split <;> rfl
  · intro newBooking h
    rw [hfound] at h
    cases h

/-- C13, at the request for 15:00 to 15:30 against an event type that requires confirmation
and against one that does not: both are answered 500 and the collection keeps its one
document. -/
theorem createBooking_initial_status_throws_witness :
    createBooking exampleRuntime [("evt", eventTypeConfirm)] [bookingDocA] createRequest1500
      = { response := BookingResponse.serverError, bookings := [bookingDocA] } ∧
    createBooking exampleRuntime [("evt", eventTypeSixty)] [bookingDocA] createRequest1500
      = { response := BookingResponse.serverError, bookings := [bookingDocA] } :=
  ⟨(createBooking_initial_status_throws exampleRuntime [("evt", eventTypeConfirm)]
      [bookingDocA] createRequest1500 eventTypeConfirm (by decide) (by decide)).2.1,
    (createBooking_initial_status_throws exampleRuntime [("evt", eventTypeSixty)]
      [bookingDocA] createRequest1500 eventTypeSixty (by decide) (by decide)).2.1⟩

/-- C14: `updateBookingStatus` changes the status of no booking.  For a stored booking in any
status, `cancelled`, `completed` and `no-show` included, and for every requested status and
every caller, the collection is left as it was, so the booking is still stored with the
status it had; the answer is 500. -/
theorem updateBookingStatus_keeps_status (now : String) (bookings : List BookingDoc)
    (bookingId : String) (user : AuthUser) (status cancellationReason : Option String)
    (booking : BookingDoc) (hget : getBookingDoc bookings bookingId = some booking) :
    (updateBookingStatus now bookings bookingId user status cancellationReason).bookings
      = bookings ∧
    getBookingDoc
        (updateBookingStatus now bookings bookingId user status cancellationReason).bookings
        bookingId = some booking ∧
    (∀ doc,
      getBookingDoc
          (updateBookingStatus now bookings bookingId user status cancellationReason).bookings
          bookingId = some doc →
        doc.status = booking.status) ∧
    (updateBookingStatus now bookings bookingId user status cancellationReason).response
      = BookingResponse.serverError := by
  rw [updateBookingStatus_serverError]
  refine ⟨rfl, hget, ?_, rfl⟩
  intro doc hdoc
  have heq : some doc = some booking := hdoc.symm.trans hget
  cases heq
  rfl

/-- C14, at the cancelled booking `c` whose owner asks for `confirmed`, and at the confirmed
booking `a` whose owner asks for `completed`: both stay as they are. -/
theorem updateBookingStatus_keeps_status_witness :
    bookingDocCancelled.status = BOOKING_STATUS.CANCELLED ∧
    getBookingDoc
        (updateBookingStatus "2024-06-04T08:00:00.000Z" [bookingDocA, bookingDocCancelled] "c"
          hostUser (some "confirmed") none).bookings "c" = some bookingDocCancelled ∧
    (updateBookingStatus "2024-06-04T08:00:00.000Z" [bookingDocA, bookingDocCancelled] "a"
        hostUser (some "completed") none).bookings = [bookingDocA, bookingDocCancelled] :=
  ⟨by decide,
    (updateBookingStatus_keeps_status "2024-06-04T08:00:00.000Z"
      [bookingDocA, bookingDocCancelled] "c" hostUser (some "confirmed") none
      bookingDocCancelled (by decide)).2.1,
    (updateBookingStatus_keeps_status "2024-06-04T08:00:00.000Z"
      [bookingDocA, bookingDocCancelled] "a" hostUser (some "completed") none
      bookingDocA (by decide)).1⟩

/-- C15 (the code at the failing input): host `host` has the confirmed bookings `a`, 14:00 to
14:30, and `b`, 15:00 to 15:30.  The owner reschedules `b` to 14:00 to 14:30.  The decision
of the availability check of `createBooking` (lines 96 to 116), taken on the other booking,
refuses that interval, yet `rescheduleBooking` answers 200 and writes it, with
`rescheduleCount` 1. -/
theorem rescheduleBooking_accepts_overlap :
    createBookingDecision 1717423200000 1717425000000
        ([bookingDocA].filterMap (BookingDoc.toBooking exampleRuntime))
      = Admission.slotTaken ∧
      rescheduleBooking "2024-06-01T08:00:00.000Z" [bookingDocA, bookingDocB] "b"
          (some hostUser) (some "2024-06-03T14:00:00Z") (some "2024-06-03T14:30:00Z") none
        = { response := BookingResponse.ok
              { bookingDocB with
                startTime := "2024-06-03T14:00:00Z", endTime := "2024-06-03T14:30:00Z"
                rescheduleCount := some 1, updatedAt := "2024-06-01T08:00:00.000Z" }
            bookings :=
              [bookingDocA,
                { bookingDocB with
                  startTime := "2024-06-03T14:00:00Z", endTime := "2024-06-03T14:30:00Z"
                  rescheduleCount := some 1, updatedAt := "2024-06-01T08:00:00.000Z" }] } := by
  decide

/-- C16: for a stored booking and a reschedule request with both times given, made by the
owner, by the invitee or with the token `reschedule-<id>`, `rescheduleBooking` answers 200
with the booking in which `startTime` and `endTime` are the requested texts,
`rescheduleCount` is the previous count (0 when unset) plus 1 and `updatedAt` is the current
time, every other property, `status` included, being the stored one; that booking is what
the collection holds afterwards, and no document is added or removed. -/
theorem rescheduleBooking_update (now : String) (bookings : List BookingDoc)
    (bookingId : String) (user : Option AuthUser) (startTime endTime : String)
    (token : Option String) (booking : BookingDoc)
    (hget : getBookingDoc bookings bookingId = some booking)
    (hstart : startTime ≠ "") (hend : endTime ≠ "")
    (hauth : (∃ u, user = some u ∧ (u.uid = booking.userId ∨ u.email = some booking.inviteeEmail)) ∨
      token = some ("reschedule-" ++ booking.id)) :
    (rescheduleBooking now bookings bookingId user (some startTime) (some endTime) token).response
      = BookingResponse.ok
          { booking with
            startTime := startTime
            endTime := endTime
            rescheduleCount := some (booking.rescheduleCount.getD 0 + 1)
            updatedAt := now } ∧
    getBookingDoc
        (rescheduleBooking now bookings bookingId user (some startTime) (some endTime)
          token).bookings bookingId
      = some
          { booking with
            startTime := startTime
            endTime := endTime
            rescheduleCount := some (booking.rescheduleCount.getD 0 + 1)
            updatedAt := now } ∧
    (rescheduleBooking now bookings bookingId user (some startTime) (some endTime)
        token).bookings.length = bookings.length := by
  have hback := getBookingDoc_update bookings bookingId
    (fun doc =>
      { doc with
        startTime := startTime
        endTime := endTime
        rescheduleCount := some (booking.rescheduleCount.getD 0 + 1)
        updatedAt := now })
    (fun _ => rfl) booking hget
  have htimes : (!truthyString (some startTime) || !truthyString (some endTime)) = false := by
    simp [truthyString, hstart, hend]
  unfold rescheduleBooking
  simp only [htimes, Bool.false_eq_true, if_false, hget, Option.getD_some]
  rcases hauth with ⟨u, hu, howner | hinvitee⟩ | htoken
  · subst hu
    simp [howner, hback, updateBookingDoc_length]
  · subst hu
    simp [hinvitee, hback, updateBookingDoc_length]
  · subst htoken
    simp [hback, updateBookingDoc_length]

/-- C16, at booking `b`, which has no `rescheduleCount`, rescheduled with its token to 14:00
to 14:30: the count becomes 1 and the status stays `confirmed`. -/
theorem rescheduleBooking_update_witness :
    (rescheduleBooking "2024-06-01T08:00:00.000Z" [bookingDocA, bookingDocB] "b" none
        (some "2024-06-03T14:00:00Z") (some "2024-06-03T14:30:00Z")
        (some "reschedule-b")).response
      = BookingResponse.ok
          { bookingDocB with
            startTime := "2024-06-03T14:00:00Z"
            endTime := "2024-06-03T14:30:00Z"
            rescheduleCount := some 1
            updatedAt := "2024-06-01T08:00:00.000Z" } :=
  (rescheduleBooking_update "2024-06-01T08:00:00.000Z" [bookingDocA, bookingDocB] "b" none
    "2024-06-03T14:00:00Z" "2024-06-03T14:30:00Z" (some "reschedule-b") bookingDocB
    (by decide) (by decide) (by decide) (Or.inr (by decide))).1

/-- C17 (the code at the failing input, and at every other): for a stored booking in any
status and a cancel request made by the owner, by the invitee or with the token
`cancel-<id>`, `cancelBooking` answers 500 and leaves the collection as it was: the booking
keeps its status and gets no `cancellationReason`. -/
theorem cancelBooking_authorised_answers_serverError (now : String)
    (bookings : List BookingDoc) (bookingId : String) (user : Option AuthUser)
    (reason token : Option String) (booking : BookingDoc)
    (hget : getBookingDoc bookings bookingId = some booking)
    (hauth : (∃ u, user = some u ∧ (u.uid = booking.userId ∨ u.email = some booking.inviteeEmail)) ∨
      token = some ("cancel-" ++ booking.id)) :
    cancelBooking now bookings bookingId user reason token
      = { response := BookingResponse.serverError, bookings := bookings } ∧
    getBookingDoc (cancelBooking now bookings bookingId user reason token).bookings bookingId
      = some booking := by
  have hresult : cancelBooking now bookings bookingId user reason token
      = { response := BookingResponse.serverError, bookings := bookings } := by
    unfold cancelBooking
    simp only [hget]
    rcases hauth with ⟨u, hu, howner | hinvitee⟩ | htoken
    · subst hu
      simp [howner, bookingController.BOOKING_STATUS]
    · subst hu
      simp [hinvitee, bookingController.BOOKING_STATUS]
    · subst htoken
      simp [bookingController.BOOKING_STATUS]
  refine ⟨hresult, ?_⟩
  rw [hresult]
  exact hget

/-- C17, at the confirmed booking `a` cancelled with its token and no reason: the answer is
500 and the booking is still stored as confirmed, without a reason. -/
theorem cancelBooking_authorised_answers_serverError_witness :
    cancelBooking "2024-06-01T08:00:00.000Z" [bookingDocA, bookingDocCancelled] "a" none none
        (some "cancel-a")
      = { response := BookingResponse.serverError
          bookings := [bookingDocA, bookingDocCancelled] } ∧
    bookingDocA.status = BOOKING_STATUS.CONFIRMED ∧ bookingDocA.cancellationReason = none :=
  ⟨(cancelBooking_authorised_answers_serverError "2024-06-01T08:00:00.000Z"
      [bookingDocA, bookingDocCancelled] "a" none none (some "cancel-a") bookingDocA
      (by decide) (Or.inr (by decide))).1,
    by decide, by decide⟩

/-! ## Availability documents -/

/-- A time that passes `timeFormat` is a present text in the `HH:MM` form. -/
theorem timeFormat_none (value : Option String) (h : AvailabilitySchema.timeFormat value = none) :
    ∃ s, value = some s ∧ isValidTimeFormat s = true := by
  unfold AvailabilitySchema.timeFormat at h
  cases value with
  | none => simp [truthyString] at h
  | some s =>
    refine ⟨s, rfl, ?_⟩
    by_cases hs : isValidTimeFormat s = true
    · exact hs
    · split at h
      · cases h
      · simp [hs] at h

/-- A request entry that passes `daySchedule`, spread over any default entry, is either not a
working day or has valid times in order. -/
theorem spreadDay_valid (lenient : String → Option Int) (base input : DaySchedule)
    (hval : AvailabilitySchema.daySchedule lenient input = none)
    (hw : (spreadDay base input).isWorking = some true) :
    ∃ s e, (spreadDay base input).start = some s ∧ (spreadDay base input).end_ = some e ∧
      isValidTimeFormat s = true ∧ isValidTimeFormat e = true ∧
      minutesOfDay s < minutesOfDay e := by
  have hskip : ¬ ((input.isWorking.isSome && !(input.isWorking == some true)) = true) := by
    intro hsk
    cases hi : input.isWorking with
    | none => simp [hi] at hsk
    | some b =>
      cases b
      · simp [spreadDay, hi] at hw
      · simp [hi] at hsk
  unfold AvailabilitySchema.daySchedule at hval
  rw [if_neg hskip] at hval
  cases hstart : AvailabilitySchema.timeFormat input.start with
  | some err => simp [hstart] at hval
  | none =>
    cases hend : AvailabilitySchema.timeFormat input.end_ with
    | some err => simp [hstart, hend] at hval
    | none =>
      simp only [hstart, hend] at hval
      obtain ⟨s, hs, hsv⟩ := timeFormat_none _ hstart
      obtain ⟨e, he, hev⟩ := timeFormat_none _ hend
      refine ⟨s, e, by simp [spreadDay, hs], by simp [spreadDay, he], hsv, hev, ?_⟩
      unfold AvailabilitySchema.timeRange at hval
      rw [hs, he] at hval
      simp only [Option.getD_some, momentHHmm, hsv, hev, if_true] at hval
      split at hval
      · cases hval
      · split at hval
        · cases hval
        · omega

/-- One step of the `forEach` of `createAvailability` keeps the invariant: a valid default
entry merged with an absent request entry, or with one that passes `daySchedule`, is
valid. -/
theorem mergeDay_valid (lenient : String → Option Int) (base : DaySchedule)
    (hbase : WorkingDayValid base) (requestDay : Option DaySchedule)
    (hval : ∀ input, requestDay = some input →
      AvailabilitySchema.daySchedule lenient input = none)
    (day : DaySchedule) (hday : mergeDay (some base) requestDay = some day) :
    WorkingDayValid day := by
  cases requestDay with
  | none =>
    simp only [mergeDay, Option.some.injEq] at hday
    subst hday
    exact hbase
  | some input =>
    simp only [mergeDay, Option.some.injEq] at hday
    subst hday
    intro hw
    exact spreadDay_valid lenient base input (hval input rfl) hw

/-- A schedule without errors has no entry that fails `daySchedule`. -/
theorem scheduleErrorsOf_nil (lenient : String → Option Int) (schedule : Schedule)
    (h : scheduleErrorsOf lenient schedule = []) (dayName : String)
    (hname : dayName ∈ DAYS_OF_WEEK) (input : DaySchedule)
    (hinput : schedule.get dayName = some input) :
    AvailabilitySchema.daySchedule lenient input = none := by
  unfold scheduleErrorsOf at h
  rw [List.filterMap_eq_nil_iff] at h
  have hd := h dayName hname
  rw [hinput] at hd
  cases hds : AvailabilitySchema.daySchedule lenient input with
  | none => rfl
  | some err => simp [hds] at hd

/-- C18: `createAvailability({ userId })`, with no schedule and no exceptions supplied,
returns a schedule in which Monday to Friday are working days from 09:00 to 17:00, Saturday
and Sunday have `isWorking` false, and `exceptions` is the empty list. -/
theorem createAvailability_default_schedule (userId : String) :
    (createAvailability { userId := userId, schedule := none, exceptions := none }).userId
        = userId ∧
    (∀ dayName ∈ ["monday", "tuesday", "wednesday", "thursday", "friday"],
      (createAvailability { userId := userId, schedule := none, exceptions := none }).schedule.get
          dayName
        = some { start := some "09:00", end_ := some "17:00", isWorking := some true }) ∧
    (∀ dayName ∈ ["saturday", "sunday"],
      ∃ day,
        (createAvailability
            { userId := userId, schedule := none, exceptions := none }).schedule.get dayName
          = some day ∧ day.isWorking = some false) ∧
    (createAvailability { userId := userId, schedule := none, exceptions := none }).exceptions
        = [] := by
  refine ⟨rfl, ?_, ?_, rfl⟩
  · intro dayName hmem
    simp only [List.mem_cons, List.mem_singleton, List.not_mem_nil, or_false] at hmem
    rcases hmem with h | h | h | h | h <;> subst h <;> rfl
  · intro dayName hmem
    simp only [List.mem_cons, List.mem_singleton, List.not_mem_nil, or_false] at hmem
    rcases hmem with h | h <;> subst h <;> exact ⟨_, rfl, rfl⟩

/-- C19: for every availability input that `validateAvailability` accepts, every one of the
seven weekday entries of the schedule `createAvailability` builds that has `isWorking` true
has `start` and `end` in the 24-hour `HH:MM` form with `start` strictly earlier than
`end`. -/
theorem createAvailability_working_days_valid (lenient : String → Option Int)
    (availabilityData : AvailabilityData)
    (hvalid : (validateAvailability lenient availabilityData).isValid = true)
    (dayName : String) (hname : dayName ∈ DAYS_OF_WEEK) (day : DaySchedule)
    (hday : (createAvailability availabilityData).schedule.get dayName = some day)
    (hworking : day.isWorking = some true) :
    ∃ s e, day.start = some s ∧ day.end_ = some e ∧
      isValidTimeFormat s = true ∧ isValidTimeFormat e = true ∧
      minutesOfDay s < minutesOfDay e := by
  have hdefault : ∀ name ∈ DAYS_OF_WEEK, ∀ base,
      DEFAULT_AVAILABILITY.get name = some base → WorkingDayValid base := by
    intro name hmem base hb
    simp only [DAYS_OF_WEEK, List.mem_cons, List.mem_singleton, List.not_mem_nil,
      or_false] at hmem
    rcases hmem with h | h | h | h | h | h | h <;> subst h <;>
      simp [Schedule.get, DEFAULT_AVAILABILITY] at hb <;>
      subst hb <;> intro hw
    · exact ⟨"09:00", "17:00", rfl, rfl, by decide, by decide, by decide⟩
    · exact ⟨"09:00", "17:00", rfl, rfl, by decide, by decide, by decide⟩
    · exact ⟨"09:00", "17:00", rfl, rfl, by decide, by decide, by decide⟩
    · exact ⟨"09:00", "17:00", rfl, rfl, by decide, by decide, by decide⟩
    · exact ⟨"09:00", "17:00", rfl, rfl, by decide, by decide, by decide⟩
    · cases hw
    · cases hw
  cases hsched : availabilityData.schedule with
  | none =>
    have hcreate : (createAvailability availabilityData).schedule = DEFAULT_AVAILABILITY := by
      simp [createAvailability, hsched]
    rw [hcreate] at hday
    exact hdefault dayName hname day hday hworking
  | some schedule =>
    have herrors : scheduleErrorsOf lenient schedule = [] := by
      unfold validateAvailability at hvalid
      simp only [hsched] at hvalid
      cases herr : scheduleErrorsOf lenient schedule with
      | nil => rfl
      | cons a rest => simp [herr] at hvalid
    have hmerge : ∀ name ∈ DAYS_OF_WEEK, ∀ base, DEFAULT_AVAILABILITY.get name = some base →
        (createAvailability availabilityData).schedule.get name
          = mergeDay (some base) (schedule.get name) := by
      intro name hmem base hb
      simp only [DAYS_OF_WEEK, List.mem_cons, List.mem_singleton, List.not_mem_nil,
        or_false] at hmem
      rcases hmem with h | h | h | h | h | h | h <;> subst h <;>
        simp [Schedule.get, DEFAULT_AVAILABILITY] at hb <;>
        subst hb <;> simp [createAvailability, hsched, Schedule.get, DEFAULT_AVAILABILITY]
    have hbase : ∃ base, DEFAULT_AVAILABILITY.get dayName = some base := by
      simp only [DAYS_OF_WEEK, List.mem_cons, List.mem_singleton, List.not_mem_nil,
        or_false] at hname
      rcases hname with h | h | h | h | h | h | h <;> subst h <;> exact ⟨_, rfl⟩
    obtain ⟨base, hb⟩ := hbase
    rw [hmerge dayName hname base hb] at hday
    exact mergeDay_valid lenient base (hdefault dayName hname base hb) (schedule.get dayName)
      (fun input hinput => scheduleErrorsOf_nil lenient schedule herrors dayName hname input hinput)
      day hday hworking

/-- C19, at a request schedule whose Saturday is marked as working 09:30 to 11:00: the
input is accepted, and the Saturday entry of the created schedule has valid times in
order. -/
theorem createAvailability_working_days_valid_witness :
    (validateAvailability (fun _ => none)
        { userId := "host", schedule := some requestSchedule, exceptions := none }).isValid
      = true ∧
    (createAvailability
        { userId := "host", schedule := some requestSchedule, exceptions := none }).schedule.get
        "saturday"
      = some { start := some "09:30", end_ := some "11:00", isWorking := some true } ∧
    ∃ s e, (some "09:30" : Option String) = some s ∧ (some "11:00" : Option String) = some e ∧
      isValidTimeFormat s = true ∧ isValidTimeFormat e = true ∧
      minutesOfDay s < minutesOfDay e :=
  ⟨by decide, by decide,
    createAvailability_working_days_valid (fun _ => none)
      { userId := "host", schedule := some requestSchedule, exceptions := none } (by decide)
      "saturday" (by decide)
      { start := some "09:30", end_ := some "11:00", isWorking := some true } (by decide) rfl⟩

/-! ## Event types -/

/-- C20 (as stated): the duration text `30.5` is none of the allowed values, as a number or
as their decimal notation, and `validateEventType` accepts an input with that duration,
because `parseInt` reads it as 30. -/
theorem validateEventType_accepts_fractional_text :
    JsValue.text "30.5" ∉ ALLOWED_DURATIONS.map JsValue.number ∧
      "30.5" ∉ ["15", "30", "45", "60", "90", "120"] ∧
      validateEventType (fun _ => JsNumber.nan)
          { title := some (JsValue.text "Intro"), userId := "host"
            duration := some (JsValue.text "30.5"), slug := none, minNotice := none
            maxBookingDays := none }
        = { isValid := true
            errors :=
              { title := none, userId := none, duration := none, slug := none
                minNotice := none, maxBookingDays := none } } := by
  decide

/-- C20 (amended): `validateEventType` rejects, with an error under the key `duration`, every
input whose duration is absent, or falsy, or is read by `parseInt` as something that is not
one of the allowed values 15, 30, 45, 60, 90, 120 (as `NaN` or as another integer); so every
integer duration outside the allowed values is rejected. -/
theorem validateEventType_rejects_duration (textToNumber : String → JsNumber)
    (eventTypeData : EventTypeData)
    (hduration : eventTypeData.duration = none ∨
      ∃ v, eventTypeData.duration = some v ∧
        (v.truthy = false ∨ ∀ n, parseInt v = some n → n ∉ ALLOWED_DURATIONS)) :
    (validateEventType textToNumber eventTypeData).isValid = false ∧
      (validateEventType textToNumber eventTypeData).errors.duration ≠ none := by
  have herr : requiredThenValidator "duration" eventTypeData.duration EventTypeSchema.duration
      ≠ none := by
    rcases hduration with hnone | ⟨v, hv, hfalsy | hparse⟩
    · rw [hnone]
      simp [requiredThenValidator, truthyValue]
    · rw [hv]
      simp [requiredThenValidator, EventTypeSchema.duration, hfalsy]
    · rw [hv]
      cases htruthy : v.truthy
      · simp [requiredThenValidator, EventTypeSchema.duration, htruthy]
      · cases hp : parseInt v with
        | none => simp [requiredThenValidator, EventTypeSchema.duration, htruthy, hp]
        | some n =>
          have hn : n ∉ ALLOWED_DURATIONS := hparse n hp
          simp [requiredThenValidator, EventTypeSchema.duration, htruthy, hp, hn]
  refine ⟨?_, herr⟩
  unfold validateEventType
  cases hd : requiredThenValidator "duration" eventTypeData.duration EventTypeSchema.duration with
  | none => exact absurd hd herr
  | some e => simp [hd]

/-- C20 (amended), at the integer duration 20 and at the text `abc`: both inputs are
rejected with a duration error. -/
theorem validateEventType_rejects_duration_witness :
    ((validateEventType (fun _ => JsNumber.nan)
        { title := some (JsValue.text "Intro"), userId := "host"
          duration := some (JsValue.number 20), slug := none, minNotice := none
          maxBookingDays := none }).isValid = false ∧
      (validateEventType (fun _ => JsNumber.nan)
        { title := some (JsValue.text "Intro"), userId := "host"
          duration := some (JsValue.number 20), slug := none, minNotice := none
          maxBookingDays := none }).errors.duration ≠ none) ∧
    (validateEventType (fun _ => JsNumber.nan)
        { title := some (JsValue.text "Intro"), userId := "host"
          duration := some (JsValue.text "abc"), slug := none, minNotice := none
          maxBookingDays := none }).isValid = false :=
  ⟨validateEventType_rejects_duration (fun _ => JsNumber.nan)
      { title := some (JsValue.text "Intro"), userId := "host"
        duration := some (JsValue.number 20), slug := none, minNotice := none
        maxBookingDays := none }
      (Or.inr ⟨JsValue.number 20, rfl, Or.inr (fun n hn => by
        simp only [parseInt, Option.some.injEq] at hn
        subst hn
        decide)⟩),
    (validateEventType_rejects_duration (fun _ => JsNumber.nan)
      { title := some (JsValue.text "Intro"), userId := "host"
        duration := some (JsValue.text "abc"), slug := none, minNotice := none
        maxBookingDays := none }
      (Or.inr ⟨JsValue.text "abc", rfl, Or.inr (fun n hn => by
        have habc : parseInt (JsValue.text "abc") = none := by decide
        rw [habc] at hn
        cases hn)⟩)).1⟩

/-! ## Interval validation of bookings -/

/-- C21: for every booking input whose `startTime` and `endTime` are valid instants with
`startTime` at or after `endTime` (zero-length intervals included), `validateBooking`
returns `isValid` false with the `dateRange` error; and `createBooking` persists nothing
for a request with such times: its answer is never 201 and the collection is unchanged.
The empty text is not a valid instant. -/
theorem validateBooking_rejects_reversed_interval (rt : Runtime) (startTime endTime : String)
    (startInstant endInstant : Int) (hempty : rt.moment "" = none)
    (hstart : rt.moment startTime = some startInstant)
    (hend : rt.moment endTime = some endInstant) (hrange : startInstant ≥ endInstant) :
    (∀ bookingData : BookingData, bookingData.startTime = some startTime →
      bookingData.endTime = some endTime →
      (validateBooking rt bookingData).isValid = false ∧
        (validateBooking rt bookingData).errors.dateRange
          = some "La fecha de inicio debe ser anterior a la fecha de fin") ∧
    (∀ (eventTypes : List (String × EventType)) (bookings : List BookingDoc)
      (req : CreateBookingRequest), req.startTime = some startTime →
      req.endTime = some endTime →
      (createBooking rt eventTypes bookings req).bookings = bookings ∧
        ∀ newBooking, (createBooking rt eventTypes bookings req).response
          ≠ BookingResponse.created newBooking) := by
  have hst : startTime ≠ "" := by
    intro h0
    rw [h0, hempty] at hstart
    cases hstart
  have het : endTime ≠ "" := by
    intro h0
    rw [h0, hempty] at hend
    cases hend
  have key : ∀ bookingData : BookingData, bookingData.startTime = some startTime →
      bookingData.endTime = some endTime →
      (validateBooking rt bookingData).isValid = false ∧
        (validateBooking rt bookingData).errors.dateRange
          = some "La fecha de inicio debe ser anterior a la fecha de fin" := by
    intro bookingData h1 h2
    have hrangeErr : (validateBooking rt bookingData).errors.dateRange
        = some "La fecha de inicio debe ser anterior a la fecha de fin" := by
      simp [validateBooking, BookingSchema.dateRange, h1, h2, truthyString, hst, het, hstart,
        hend, hrange]
    refine ⟨?_, hrangeErr⟩
    have hvalid : (validateBooking rt bookingData).isValid =
        ((validateBooking rt bookingData).errors.eventTypeId.isNone &&
          (validateBooking rt bookingData).errors.userId.isNone &&
          (validateBooking rt bookingData).errors.startTime.isNone &&
          (validateBooking rt bookingData).errors.endTime.isNone &&
          (validateBooking rt bookingData).errors.inviteeEmail.isNone &&
          (validateBooking rt bookingData).errors.inviteeName.isNone &&
          (validateBooking rt bookingData).errors.dateRange.isNone &&
          (validateBooking rt bookingData).errors.status.isNone) := rfl
    rw [hvalid, hrangeErr]
    simp
  refine ⟨key, ?_⟩
  intro eventTypes bookings req _ _
  refine ⟨(createBooking_outcome rt eventTypes bookings req).1, ?_⟩
  intro newBooking h
  rcases (createBooking_outcome rt eventTypes bookings req).2 with h1 | h1 | h1 <;>
    rw [h1] at h <;> cases h

/-- C21, at the reversed request 15:30 to 15:00 and at the zero-length request 15:00 to
15:00: `createBooking` creates nothing and the collection keeps its one document, and
`validateBooking` finds the zero-length interval invalid. -/
theorem validateBooking_rejects_reversed_interval_witness :
    (createBooking exampleRuntime [("evt", eventTypeSixty)] [bookingDocA]
        createRequestReversed).bookings = [bookingDocA] ∧
    (∀ newBooking,
      (createBooking exampleRuntime [("evt", eventTypeSixty)] [bookingDocA]
        createRequestReversed).response ≠ BookingResponse.created newBooking) ∧
    (validateBooking exampleRuntime
        { eventTypeId := some "evt", userId := some "host"
          startTime := some "2024-06-03T15:00:00Z", endTime := some "2024-06-03T15:00:00Z"
          inviteeEmail := some "ana@example.com", inviteeName := some "Ana"
          inviteePhone := none, notes := none, timezone := none, location := none
          questions := none, status := none }).isValid = false :=
  ⟨((validateBooking_rejects_reversed_interval exampleRuntime "2024-06-03T15:30:00Z"
        "2024-06-03T15:00:00Z" 1717428600000 1717426800000 (by decide) (by decide) (by decide)
        (by decide)).2 [("evt", eventTypeSixty)] [bookingDocA] createRequestReversed rfl rfl).1,
    ((validateBooking_rejects_reversed_interval exampleRuntime "2024-06-03T15:30:00Z"
        "2024-06-03T15:00:00Z" 1717428600000 1717426800000 (by decide) (by decide) (by decide)
        (by decide)).2 [("evt", eventTypeSixty)] [bookingDocA] createRequestReversed rfl rfl).2,
    ((validateBooking_rejects_reversed_interval exampleRuntime "2024-06-03T15:00:00Z"
        "2024-06-03T15:00:00Z" 1717426800000 1717426800000 (by decide) (by decide) (by decide)
        (by decide)).1 _ rfl rfl).1⟩

/-- C22 (the code at the failing input): the owner reschedules booking `b` to the reversed
interval 15:30 to 15:00, and then to texts that are no instants at all; `rescheduleBooking`
answers 200 both times and writes the texts as they came. -/
theorem rescheduleBooking_writes_invalid_interval :
    (exampleRuntime.moment "2024-06-03T15:30:00Z" = some 1717428600000 ∧
      exampleRuntime.moment "2024-06-03T15:00:00Z" = some 1717426800000 ∧
      exampleRuntime.moment "mañana" = none) ∧
    rescheduleBooking "2024-06-01T08:00:00.000Z" [bookingDocB] "b" (some hostUser)
        (some "2024-06-03T15:30:00Z") (some "2024-06-03T15:00:00Z") none
      = { response := BookingResponse.ok
            { bookingDocB with
              startTime := "2024-06-03T15:30:00Z", endTime := "2024-06-03T15:00:00Z"
              rescheduleCount := some 1, updatedAt := "2024-06-01T08:00:00.000Z" }
          bookings :=
            [{ bookingDocB with
               startTime := "2024-06-03T15:30:00Z", endTime := "2024-06-03T15:00:00Z"
               rescheduleCount := some 1, updatedAt := "2024-06-01T08:00:00.000Z" }] } ∧
    (rescheduleBooking "2024-06-01T08:00:00.000Z" [bookingDocB] "b" (some hostUser)
        (some "mañana") (some "mañana") none).bookings
      = [{ bookingDocB with
           startTime := "mañana", endTime := "mañana"
           rescheduleCount := some 1, updatedAt := "2024-06-01T08:00:00.000Z" }] := by
  decide

/-! ## Time texts -/

/-- A digit character is one whose code lies between the codes of `0` and `9`. -/
theorem isDigit_iff (c : Char) : c.isDigit = true ↔ 48 ≤ c.toNat ∧ c.toNat ≤ 57 := by
  simp only [Char.isDigit, Char.toNat, Bool.and_eq_true, decide_eq_true_eq, UInt32.le_def,
    ge_iff_le, BitVec.le_def]
  exact Iff.rfl

/-- Characters are equal exactly when their codes are. -/
theorem char_eq_iff (a b : Char) : a = b ↔ a.toNat = b.toNat := by
  constructor
  · intro h
    rw [h]
  · intro h
    apply Char.ext
    apply UInt32.ext
    exact h

/-- Lexicographic comparison of two non-empty character lists, by codes. -/
theorem cons_lt_cons_chars (a b : Char) (as bs : List Char) :
    (a :: as) < (b :: bs) ↔ a.toNat < b.toNat ∨ (a.toNat = b.toNat ∧ as < bs) := by
  constructor
  · intro h
    cases h with
    | rel h => exact Or.inl h
    | cons h => exact Or.inr ⟨rfl, h⟩
  · rintro (h | ⟨h1, h2⟩)
    · exact List.Lex.rel h
    · have := (char_eq_iff a b).2 h1
      subst this
      exact List.Lex.cons h2

/-- The shape of a text in the `HH:MM` form, with the codes of its four digits and the
minutes it denotes. -/
theorem isValidTimeFormat_shape (time : String) (h : isValidTimeFormat time = true) :
    ∃ h1 h2 m1 m2 : Char, time.toList = [h1, h2, ':', m1, m2] ∧
      ((48 ≤ h1.toNat ∧ h1.toNat ≤ 49 ∧ 48 ≤ h2.toNat ∧ h2.toNat ≤ 57) ∨
        (h1.toNat = 50 ∧ 48 ≤ h2.toNat ∧ h2.toNat ≤ 51)) ∧
      48 ≤ m1.toNat ∧ m1.toNat ≤ 53 ∧ 48 ≤ m2.toNat ∧ m2.toNat ≤ 57 ∧
      minutesOfDay time =
        (((h1.toNat : Int) - 48) * 10 + ((h2.toNat : Int) - 48)) * 60 +
          (((m1.toNat : Int) - 48) * 10 + ((m2.toNat : Int) - 48)) := by
  unfold isValidTimeFormat at h
  split at h
  · rename_i h1 h2 colon m1 m2 hlist
    simp only [Bool.and_eq_true, Bool.or_eq_true, beq_iff_eq, isDigit_iff] at h
    obtain ⟨⟨⟨hh, hcolon⟩, hm1⟩, hm2a, hm2b⟩ := h
    subst hcolon
    refine ⟨h1, h2, m1, m2, hlist, ?_, ?_, ?_, hm2a, hm2b, ?_⟩
    · rcases hh with ⟨h10 | h11, hd1, hd2⟩ | ⟨h12, h2x⟩
      · subst h10
        exact Or.inl ⟨by decide, by decide, hd1, hd2⟩
      · subst h11
        exact Or.inl ⟨by decide, by decide, hd1, hd2⟩
      · subst h12
        refine Or.inr ⟨by decide, ?_⟩
        rcases h2x with ((hx | hx) | hx) | hx <;> subst hx <;> decide
    · rcases hm1 with ((((hx | hx) | hx) | hx) | hx) | hx <;> subst hx <;> decide
    · rcases hm1 with ((((hx | hx) | hx) | hx) | hx) | hx <;> subst hx <;> decide
    · unfold minutesOfDay
      rw [hlist]
      simp only [digitValue]
      have h0 : (('0'.toNat : Nat) : Int) = 48 := by decide
      rw [h0]
  · cases h

/-- On texts in the `HH:MM` form the order of the minutes is the lexicographic order of the
texts. -/
theorem minutesOfDay_lt_iff_lt (start end_ : String) (hs : isValidTimeFormat start = true)
    (he : isValidTimeFormat end_ = true) :
    minutesOfDay start < minutesOfDay end_ ↔ start < end_ := by
  obtain ⟨a1, a2, a3, a4, hsl, hsh, hs3a, hs3b, hs4a, hs4b, hsm⟩ :=
    isValidTimeFormat_shape start hs
  obtain ⟨b1, b2, b3, b4, hel, heh, he3a, he3b, he4a, he4b, hem⟩ :=
    isValidTimeFormat_shape end_ he
  rw [String.lt_iff_toList_lt, hsl, hel, hsm, hem]
  have hnil : ¬ (([] : List Char) < []) := by
    intro h
    cases h
  simp only [cons_lt_cons_chars, hnil, and_false, or_false, lt_self_iff_false, false_or,
    true_and]
  omega

/-- C23: for all texts `start` and `end`, `isValidTimeRange(start, end)` is true exactly when
both are in the 24-hour `HH:MM` form (five characters, hours 00 to 23, minutes 00 to 59)
and `start` is strictly earlier in the day than `end`; for texts in that form the order of
the times is the lexicographic order of the texts; and equal times give false. -/
theorem isValidTimeRange_iff (lenient : String → Option Int) (start end_ : String) :
    (isValidTimeRange lenient start end_ = true ↔
      isValidTimeFormat start = true ∧ isValidTimeFormat end_ = true ∧
        minutesOfDay start < minutesOfDay end_) ∧
    (isValidTimeFormat start = true → isValidTimeFormat end_ = true →
      (minutesOfDay start < minutesOfDay end_ ↔ start < end_)) ∧
    isValidTimeRange lenient start start = false := by
  refine ⟨?_, minutesOfDay_lt_iff_lt start end_, ?_⟩
  · unfold isValidTimeRange
    by_cases hs : isValidTimeFormat start = true
    · by_cases he : isValidTimeFormat end_ = true
      · simp [hs, he, momentHHmm]
      · simp [hs, he]
    · simp [hs]
  · unfold isValidTimeRange
    by_cases hs : isValidTimeFormat start = true
    · simp [hs, momentHHmm]
    · simp [hs]

/-- C23, at three pairs of texts: 09:00 before 17:00 is a valid range, and the theorem's
right-hand side fails for the reversed pair and for a text that is not in the form. -/
theorem isValidTimeRange_iff_witness :
    isValidTimeRange (fun _ => none) "09:00" "17:00" = true ∧
      isValidTimeRange (fun _ => none) "17:00" "09:00" = false ∧
      isValidTimeRange (fun _ => some 0) "9:00" "17:00" = false ∧
      ("09:00" < "17:00") :=
  ⟨(isValidTimeRange_iff (fun _ => none) "09:00" "17:00").1.2 ⟨by decide, by decide, by decide⟩,
    by decide, by decide,
    ((isValidTimeRange_iff (fun _ => none) "09:00" "17:00").2.1 (by decide) (by decide)).1
      (by decide)⟩

/-! ## Listing bookings -/

/-- Inserting into a list gives the same result for two relations that agree between the
inserted item and the items of the list. -/
theorem orderedInsert_congr {α : Type} (r r' : α → α → Prop) [DecidableRel r] [DecidableRel r']
    (a : α) (l : List α) (h : ∀ b ∈ l, r a b ↔ r' a b) :
    List.orderedInsert r a l = List.orderedInsert r' a l := by
  induction l with
  | nil => rfl
  | cons b t ih =>
    have hb := h b (List.mem_cons_self b t)
    have ht := ih (fun c hc => h c (List.mem_cons_of_mem b hc))
    by_cases hr : r a b
    · have hr' : r' a b := hb.1 hr
      simp [List.orderedInsert, hr, hr']
    · have hr' : ¬ r' a b := fun h' => hr (hb.2 h')
      simp [List.orderedInsert, hr, hr', ht]

/-- Insertion sort gives the same result for two relations that agree on the items of the
list. -/
theorem insertionSort_congr {α : Type} (r r' : α → α → Prop) [DecidableRel r] [DecidableRel r']
    (l : List α) (h : ∀ a ∈ l, ∀ b ∈ l, r a b ↔ r' a b) :
    List.insertionSort r l = List.insertionSort r' l := by
  induction l with
  | nil => rfl
  | cons a t ih =>
    have ht := ih (fun x hx y hy => h x (List.mem_cons_of_mem a hx) y (List.mem_cons_of_mem a hy))
    simp only [List.insertionSort]
    rw [ht]
    apply orderedInsert_congr
    intro b hb
    have hbt : b ∈ t := (List.perm_insertionSort r' t).mem_iff.1 hb
    exact h a (List.mem_cons_self a t) b (List.mem_cons_of_mem a hbt)

/-- Sorting with the comparator of `getBookings` puts documents with valid start times in
descending order of their instants. -/
theorem arraySort_startDesc_sorted (rt : Runtime) (l : List BookingDoc)
    (hvalid : ∀ doc ∈ l, ∃ x, rt.moment doc.startTime = some x) :
    List.Pairwise
      (fun a b => ∃ x y, rt.moment a.startTime = some x ∧ rt.moment b.startTime = some y ∧ x ≥ y)
      (arraySort (compareByStartDesc rt) l) := by
  let key : BookingDoc → Int := fun doc => (rt.moment doc.startTime).getD 0
  have hagree : ∀ a ∈ l, ∀ b ∈ l, (compareByStartDesc rt a b ≤ 0 ↔ key a ≥ key b) := by
    intro a ha b hb
    obtain ⟨x, hx⟩ := hvalid a ha
    obtain ⟨y, hy⟩ := hvalid b hb
    simp only [compareByStartDesc, hx, hy, key, Option.getD_some]
    omega
  have heq : arraySort (compareByStartDesc rt) l
      = List.insertionSort (fun a b => key a ≥ key b) l :=
    insertionSort_congr _ _ l hagree
  have htotal : IsTotal BookingDoc (fun a b => key a ≥ key b) :=
    ⟨fun a b => le_total (key b) (key a)⟩
  have htrans : IsTrans BookingDoc (fun a b => key a ≥ key b) :=
    ⟨fun a b c hab hbc => le_trans hbc hab⟩
  have hsorted := List.sorted_insertionSort (fun a b : BookingDoc => key a ≥ key b) l
  rw [heq]
  have hmem : ∀ doc ∈ List.insertionSort (fun a b => key a ≥ key b) l, doc ∈ l :=
    fun doc hdoc => (List.perm_insertionSort _ l).mem_iff.1 hdoc
  refine List.Pairwise.imp_of_mem ?_ hsorted
  intro a b ha hb hab
  obtain ⟨x, hx⟩ := hvalid a (hmem a ha)
  obtain ⟨y, hy⟩ := hvalid b (hmem b hb)
  refine ⟨x, y, hx, hy, ?_⟩
  simpa [key, hx, hy] using hab

/-- C24: whenever `getBookings` fetches a list, it answers 200, the list it returns is a
permutation of the list it fetched, `count` is the length of both, and when every fetched
booking has a valid start time the returned list is in descending order of start instant
(every earlier booking of the list, so in particular the left one of two neighbours, starts
at or after every later one).  A list is fetched for every request without `status`; a
request with a `status` is answered 500 and fetches none. -/
theorem getBookings_sorted_permutation (rt : Runtime) (startOfDayISO endOfDayISO : String → String)
    (bookingsCollection : List BookingDoc) (user : AuthUser)
    (status startDate endDate : Option String) :
    (∀ fetched,
      getBookingsQuery startOfDayISO endOfDayISO bookingsCollection user.uid status startDate
          endDate = some fetched →
        ∃ listing,
          getBookings rt startOfDayISO endOfDayISO bookingsCollection user status startDate
              endDate = BookingsResponse.ok listing ∧
            List.Perm listing.data fetched ∧
            listing.count = listing.data.length ∧
            listing.count = fetched.length ∧
            ((∀ doc ∈ fetched, ∃ x, rt.moment doc.startTime = some x) →
              List.Pairwise
                (fun a b =>
                  ∃ x y, rt.moment a.startTime = some x ∧ rt.moment b.startTime = some y ∧
                    x ≥ y)
                listing.data ∧
              List.Chain'
                (fun a b =>
                  ∃ x y, rt.moment a.startTime = some x ∧ rt.moment b.startTime = some y ∧
                    x ≥ y)
                listing.data)) ∧
    (truthyString status = false →
      ∃ fetched,
        getBookingsQuery startOfDayISO endOfDayISO bookingsCollection user.uid status startDate
            endDate = some fetched) ∧
    (truthyString status = true →
      getBookingsQuery startOfDayISO endOfDayISO bookingsCollection user.uid status startDate
          endDate = none ∧
        getBookings rt startOfDayISO endOfDayISO bookingsCollection user status startDate
          endDate = BookingsResponse.serverError) := by
  refine ⟨?_, ?_, ?_⟩
  · intro fetched hfetched
    have hperm : List.Perm (arraySort (compareByStartDesc rt) fetched) fetched := by
      unfold arraySort
      exact List.perm_insertionSort _ _
    refine ⟨{ count := (arraySort (compareByStartDesc rt) fetched).length
              data := arraySort (compareByStartDesc rt) fetched }, ?_, hperm, rfl,
      hperm.length_eq, ?_⟩
    · unfold getBookings
      simp only [hfetched]
    · intro hvalid
      have hsorted := arraySort_startDesc_sorted rt _ hvalid
      exact ⟨hsorted, List.Pairwise.chain' hsorted⟩
  · intro hstatus
    unfold getBookingsQuery
    simp only [hstatus, Bool.false_eq_true, if_false]
    split <;> exact ⟨_, rfl⟩
  · intro hstatus
    have hquery : getBookingsQuery startOfDayISO endOfDayISO bookingsCollection user.uid status
        startDate endDate = none := by
      unfold getBookingsQuery
      simp [hstatus, bookingController.BOOKING_STATUS]
    refine ⟨hquery, ?_⟩
    unfold getBookings
    simp only [hquery]

/-- C24, at the collection `[a, c, b]` of host `host`, whose bookings start at 14:00, 15:00
and 15:00: the listing puts the two 15:00 bookings first, in their fetched order, then the
14:00 booking, and counts 3. -/
theorem getBookings_sorted_permutation_witness :
    getBookingsQuery exampleStartOfDayISO exampleEndOfDayISO
        [bookingDocA, bookingDocCancelled, bookingDocB] hostUser.uid none none none
      = some [bookingDocA, bookingDocCancelled, bookingDocB] ∧
    getBookings exampleRuntime exampleStartOfDayISO exampleEndOfDayISO
        [bookingDocA, bookingDocCancelled, bookingDocB] hostUser none none none
      = BookingsResponse.ok
          { count := 3, data := [bookingDocCancelled, bookingDocB, bookingDocA] } ∧
    List.Perm [bookingDocCancelled, bookingDocB, bookingDocA]
      [bookingDocA, bookingDocCancelled, bookingDocB] :=
  ⟨by decide, by decide,
    by
      obtain ⟨listing, hlisting, hperm, -⟩ :=
        (getBookings_sorted_permutation exampleRuntime exampleStartOfDayISO
          exampleEndOfDayISO [bookingDocA, bookingDocCancelled, bookingDocB] hostUser none none
          none).1 [bookingDocA, bookingDocCancelled, bookingDocB] (by decide)
      have hdata : getBookings exampleRuntime exampleStartOfDayISO exampleEndOfDayISO
          [bookingDocA, bookingDocCancelled, bookingDocB] hostUser none none none
          = BookingsResponse.ok
              { count := 3, data := [bookingDocCancelled, bookingDocB, bookingDocA] } := by
        decide
      rw [hdata] at hlisting
      cases hlisting
      exact hperm⟩

/-! ## Slot generation against admission, loop bound and slot count -/

/-- C25 (the code at the failing input): host `host` works on Mondays from 00:00 to 02:00 and
has one confirmed booking, from 23:30 on 2 June 2024 to 00:30 on 3 June.  For 3 June and a
duration of 60 minutes `getAvailableTimeSlots` fetches no booking (the booking starts on the
day before) and displays five slots, the first of them 00:00 to 01:00.  That slot overlaps
the booking: the overlap condition of `createBooking` holds, as does the slot test of
`getAvailableTimeSlots` itself on that booking, so the decision of lines 96 to 116 on the
host's active bookings is `slot taken`.  And `createBooking`, asked for the slot, answers 500,
as it does for every displayed slot. -/
theorem getAvailableTimeSlots_displays_overlapping_slot :
    (dayBookings storeAcrossMidnight.bookings "host" 1717372800000 1717459199999 = [] ∧
      getAvailableTimeSlots calendarEarlyMonday storeAcrossMidnight (some "evt")
          (some "2024-06-03") none
        = SlotsResponse.ok
            [{ start := 1717372800000, end_ := 1717376400000 },
              { start := 1717373700000, end_ := 1717377300000 },
              { start := 1717374600000, end_ := 1717378200000 },
              { start := 1717375500000, end_ := 1717379100000 },
              { start := 1717376400000, end_ := 1717380000000 }]) ∧
    (BookingDoc.toBooking exampleRuntimeNight bookingDocAcrossMidnight
        = some bookingAcrossMidnight ∧
      createBookingConflict 1717372800000 1717376400000 bookingAcrossMidnight = true ∧
      slotConflict 0 0 1717372800000 1717376400000 bookingAcrossMidnight = true ∧
      createBookingDecision 1717372800000 1717376400000 storeAcrossMidnight.bookings
        = Admission.slotTaken) ∧
    createBooking exampleRuntimeNight [("evt", eventTypeSixty)] [bookingDocAcrossMidnight]
        createRequestMidnight
      = { response := BookingResponse.serverError, bookings := [bookingDocAcrossMidnight] } := by
  refine ⟨⟨by decide, ?_⟩, ⟨by decide, by decide, by decide, by decide⟩, by decide⟩
  simp [getAvailableTimeSlots, truthyString, storeAcrossMidnight, List.lookup, eventTypeSixty,
    hostAvailability, availabilityEarlyMonday, calendarEarlyMonday, Schedule.get,
    userTimezoneOf, orString, dayBookings, bookingAcrossMidnight, generateSlots, slotLoop,
    msPerMinute]

/-- The counter of the counted loop only grows by the iterations made, and its array is the
one of `slotLoop`. -/
theorem slotLoopCounted_spec (e d bb ba : Int) (bs : List Booking) (s : Int) :
    ∀ (acc : List Slot) (n : Nat),
      (slotLoopCounted e d bb ba bs acc s n).1 = slotLoop e d bb ba bs acc s ∧
      n ≤ (slotLoopCounted e d bb ba bs acc s n).2 ∧
      (((slotLoopCounted e d bb ba bs acc s n).2 : Int) - n) * (15 * msPerMinute)
        < max (e - s) 0 + 15 * msPerMinute := by
  refine slotStart_induction e (fun s => ∀ (acc : List Slot) (n : Nat),
      (slotLoopCounted e d bb ba bs acc s n).1 = slotLoop e d bb ba bs acc s ∧
      n ≤ (slotLoopCounted e d bb ba bs acc s n).2 ∧
      (((slotLoopCounted e d bb ba bs acc s n).2 : Int) - n) * (15 * msPerMinute)
        < max (e - s) 0 + 15 * msPerMinute) ?_ ?_ s
  · intro s hs acc n
    rw [slotLoopCounted, slotLoop, if_neg hs, if_neg hs]
    refine ⟨rfl, le_refl _, ?_⟩
    have hstep : (15 : Int) * msPerMinute = 900000 := rfl
    rw [hstep]
    omega
  · intro s hs ih acc n
    rw [slotLoopCounted, slotLoop, if_pos hs, if_pos hs]
    by_cases hbreak : s + d * msPerMinute > e
    · simp only [hbreak, if_true]
      refine ⟨trivial, Nat.le_succ n, ?_⟩
      have hstep : (15 : Int) * msPerMinute = 900000 := rfl
      rw [hstep]
      push_cast
      omega
    · simp only [hbreak, if_false]
      obtain ⟨h1, h2, h3⟩ := ih
        (if (!bs.any (slotConflict bb ba s (s + d * msPerMinute))) = true then
          acc ++ [{ start := s, end_ := s + d * msPerMinute }] else acc) (n + 1)
      refine ⟨h1, by omega, ?_⟩
      generalize (slotLoopCounted e d bb ba bs
        (if (!bs.any (slotConflict bb ba s (s + d * msPerMinute))) = true then
          acc ++ [{ start := s, end_ := s + d * msPerMinute }] else acc)
        (s + 15 * msPerMinute) (n + 1)).2 = total at h2 h3 ⊢
      have hstep : (15 : Int) * msPerMinute = 900000 := rfl
      rw [hstep] at h3 ⊢
      push_cast at h3
      omega

/-- C26: the slot loop of `getAvailableTimeSlots` ends for every window, every integer duration
(zero and negative ones included) and every list of bookings: the loop with an iteration
counter is a total function, it leaves the array of `generateSlots`, and its number of
iterations is at most the ceiling of the window length over 15 minutes when the window is
not empty, and 0 otherwise. -/
theorem slotLoop_iterations_bound (startTime endTime duration bufferBefore bufferAfter : Int)
    (existingBookings : List Booking) :
    (slotLoopCounted endTime duration bufferBefore bufferAfter existingBookings [] startTime 0).1
        = generateSlots startTime endTime duration bufferBefore bufferAfter existingBookings ∧
    (startTime < endTime →
      ((slotLoopCounted endTime duration bufferBefore bufferAfter existingBookings []
          startTime 0).2 : Int)
        ≤ ⌈((endTime - startTime : Int) : ℚ) / ((15 * msPerMinute : Int) : ℚ)⌉) ∧
    (endTime ≤ startTime →
      (slotLoopCounted endTime duration bufferBefore bufferAfter existingBookings []
        startTime 0).2 = 0) := by
  obtain ⟨h1, -, h3⟩ := slotLoopCounted_spec endTime duration bufferBefore bufferAfter
    existingBookings startTime [] 0
  have hstep : (15 : Int) * msPerMinute = 900000 := rfl
  rw [hstep] at h3 ⊢
  generalize (slotLoopCounted endTime duration bufferBefore bufferAfter existingBookings []
    startTime 0).2 = total at h3 ⊢
  refine ⟨h1, ?_, ?_⟩
  · intro hwin
    have hlt : ((total : Int) - 1) < ⌈((endTime - startTime : Int) : ℚ) / ((900000 : Int) : ℚ)⌉ := by
      rw [Int.lt_ceil, lt_div_iff₀ (by norm_num)]
      have hint : ((total : Int) - 1) * 900000 < endTime - startTime := by
        push_cast at h3
        omega
      exact_mod_cast hint
    omega
  · intro hwin
    push_cast at h3
    omega

/-- Without bookings the loop emits one slot per grid start that fits: its count, for a
window of `W` minutes from the loop start. -/
theorem slotLoop_length_no_bookings (e d bb ba : Int) (hd : 0 < d) (s : Int) :
    ∀ W : Int, s + W * msPerMinute = e →
      ((slotLoop e d bb ba [] [] s).length : Int) = if d ≤ W then (W - d) / 15 + 1 else 0 := by
  refine slotStart_induction e (fun s => ∀ W : Int, s + W * msPerMinute = e →
      ((slotLoop e d bb ba [] [] s).length : Int) = if d ≤ W then (W - d) / 15 + 1 else 0)
    ?_ ?_ s
  · intro s hs W hW
    rw [slotLoop_nil, if_neg hs]
    have hWle : ¬ d ≤ W := by
      simp only [msPerMinute] at hW
      omega
    simp [hWle]
  · intro s hs ih W hW
    rw [slotLoop_nil, if_pos hs]
    by_cases hbreak : s + d * msPerMinute > e
    · rw [if_pos hbreak]
      have hWle : ¬ d ≤ W := by
        simp only [msPerMinute] at hW hbreak
        omega
      simp [hWle]
    · rw [if_neg hbreak]
      have hWle : d ≤ W := by
        simp only [msPerMinute] at hW hbreak
        omega
      have hnext := ih (W - 15) (by simp only [msPerMinute] at hW ⊢; omega)
      simp only [List.any_nil, Bool.false_eq_true, if_false, List.singleton_append,
        List.length_cons, Nat.cast_add, Nat.cast_one, hnext, if_pos hWle]
      by_cases hfit : d ≤ W - 15
      · rw [if_pos hfit]
        omega
      · rw [if_neg hfit]
        omega

/-- C27: with an empty list of existing bookings, a working window of `W` minutes and a
duration of `d` minutes, `d > 0`, the slot loop of `getAvailableTimeSlots` emits exactly
`floor((W - d) / 15) + 1` slots when `d ≤ W` and none when `d > W`; this holds for every
integer `W`, so in particular for `W > 0`. -/
theorem generateSlots_count_no_bookings (startTime window duration bufferBefore bufferAfter : Int)
    (hduration : 0 < duration) :
    ((generateSlots startTime (startTime + window * msPerMinute) duration bufferBefore
        bufferAfter []).length : Int)
      = if duration ≤ window then (window - duration) / 15 + 1 else 0 := by
  exact slotLoop_length_no_bookings (startTime + window * msPerMinute) duration bufferBefore
    bufferAfter hduration startTime window rfl

/-- C27, at the window 09:00 to 17:00 (480 minutes) with 60 minutes, which gives 29 slots, and
with 481 minutes, which gives none. -/
theorem generateSlots_count_no_bookings_witness :
    ((generateSlots 32400000 (32400000 + 480 * msPerMinute) 60 0 0 []).length : Int) = 29 ∧
      ((generateSlots 32400000 (32400000 + 480 * msPerMinute) 481 0 0 []).length : Int) = 0 :=
  ⟨generateSlots_count_no_bookings 32400000 480 60 0 0 (by decide),
    generateSlots_count_no_bookings 32400000 480 481 0 0 (by decide)⟩

/-! ## Event type records -/

/-- An input that `validateEventType` accepts has a non-empty text as title. -/
theorem validateEventType_title (textToNumber : String → JsNumber) (eventTypeData : EventTypeData)
    (hvalid : (validateEventType textToNumber eventTypeData).isValid = true) :
    ∃ title, eventTypeData.title = some (JsValue.text title) ∧ title ≠ "" := by
  have htitle : requiredThenValidator "title" eventTypeData.title EventTypeSchema.title = none := by
    unfold validateEventType at hvalid
    simp only [Bool.and_eq_true, Option.isNone_iff_eq_none] at hvalid
    exact hvalid.1.1.1.1.1
  unfold requiredThenValidator at htitle
  cases ht : eventTypeData.title with
  | none => simp [ht, truthyValue] at htitle
  | some v =>
    cases v with
    | text title =>
      refine ⟨title, rfl, ?_⟩
      intro h0
      subst h0
      simp [ht, EventTypeSchema.title] at htitle
    | null => simp [ht, EventTypeSchema.title] at htitle
    | bool b => simp [ht, EventTypeSchema.title] at htitle
    | number n => simp [ht, EventTypeSchema.title] at htitle

/-- For an input with a non-empty text as title `createEventType` returns a record. -/
theorem createEventType_isSome (toLowerCase : String → String) (uuid timestamp : String)
    (eventTypeData : EventTypeData) (title : String)
    (htitle : eventTypeData.title = some (JsValue.text title)) :
    ∃ record, createEventType toLowerCase uuid timestamp eventTypeData = some record ∧
      record.minNotice = jsOr eventTypeData.minNotice (JsValue.number 60) ∧
      record.maxBookingDays = jsOr eventTypeData.maxBookingDays (JsValue.number 60) ∧
      some record.slug = createEventTypeSlug toLowerCase eventTypeData := by
  have hslug : ∃ slug, createEventTypeSlug toLowerCase eventTypeData = some slug := by
    unfold createEventTypeSlug
    by_cases hs : truthyValue eventTypeData.slug = true
    · cases hsv : eventTypeData.slug with
      | none => simp [hsv, truthyValue] at hs
      | some v =>
        rw [if_pos (by rw [← hsv]; exact hs)]
        exact ⟨v, rfl⟩
    · rw [if_neg hs]
      by_cases ht : truthyValue eventTypeData.title = true
      · rw [if_pos ht, htitle]
        exact ⟨_, rfl⟩
      · rw [if_neg ht]
        exact ⟨_, rfl⟩
  obtain ⟨slug, hslug⟩ := hslug
  unfold createEventType
  rw [hslug]
  exact ⟨_, rfl, rfl, rfl, rfl⟩

/-- C28: for every event-type input that `validateEventType` accepts and whose `minNotice`
and `maxBookingDays` are numbers or absent, `createEventType` returns a record whose
`minNotice` is a number at least 0 and whose `maxBookingDays` is a number from 1 to 365; an
input value of 0, or an absent value, of either field is replaced by the default 60. -/
theorem createEventType_notice_and_days (textToNumber : String → JsNumber)
    (toLowerCase : String → String) (uuid timestamp : String) (eventTypeData : EventTypeData)
    (hvalid : (validateEventType textToNumber eventTypeData).isValid = true)
    (hnotice : eventTypeData.minNotice = none ∨
      ∃ n, eventTypeData.minNotice = some (JsValue.number n))
    (hdays : eventTypeData.maxBookingDays = none ∨
      ∃ n, eventTypeData.maxBookingDays = some (JsValue.number n)) :
    ∃ record notice days,
      createEventType toLowerCase uuid timestamp eventTypeData = some record ∧
      record.minNotice = JsValue.number notice ∧ 0 ≤ notice ∧
      record.maxBookingDays = JsValue.number days ∧ 1 ≤ days ∧ days ≤ 365 ∧
      ((eventTypeData.minNotice = none ∨ eventTypeData.minNotice = some (JsValue.number 0)) →
        notice = 60) ∧
      ((eventTypeData.maxBookingDays = none ∨
          eventTypeData.maxBookingDays = some (JsValue.number 0)) → days = 60) := by
  obtain ⟨title, htitle, -⟩ := validateEventType_title textToNumber eventTypeData hvalid
  obtain ⟨record, hrecord, hrn, hrd, -⟩ :=
    createEventType_isSome toLowerCase uuid timestamp eventTypeData title htitle
  have herrors : EventTypeSchema.minNotice textToNumber eventTypeData.minNotice = none ∧
      EventTypeSchema.maxBookingDays textToNumber eventTypeData.maxBookingDays = none := by
    unfold validateEventType at hvalid
    simp only [Bool.and_eq_true, Option.isNone_iff_eq_none] at hvalid
    exact ⟨hvalid.1.2, hvalid.2⟩
  obtain ⟨hen, hed⟩ := herrors
  have hN : ∃ notice, jsOr eventTypeData.minNotice (JsValue.number 60) = JsValue.number notice ∧
      0 ≤ notice ∧
      ((eventTypeData.minNotice = none ∨ eventTypeData.minNotice = some (JsValue.number 0)) →
        notice = 60) := by
    rcases hnotice with hnone | ⟨n, hn⟩
    · exact ⟨60, by simp [hnone, jsOr], by decide, fun _ => rfl⟩
    · by_cases h0 : n = 0
      · subst h0
        exact ⟨60, by simp [hn, jsOr, JsValue.truthy], by decide, fun _ => rfl⟩
      · refine ⟨n, by simp [hn, jsOr, JsValue.truthy, h0], ?_, ?_⟩
        · rw [hn] at hen
          simp only [EventTypeSchema.minNotice, toNumber, JsValue.truthy, JsNumber.ltInt] at hen
          simp [h0] at hen
          exact_mod_cast hen
        · rintro (h | h)
          · rw [hn] at h
            cases h
          · rw [hn] at h
            simp only [Option.some.injEq, JsValue.number.injEq] at h
            exact absurd h h0
  have hD : ∃ days, jsOr eventTypeData.maxBookingDays (JsValue.number 60) = JsValue.number days ∧
      1 ≤ days ∧ days ≤ 365 ∧
      ((eventTypeData.maxBookingDays = none ∨
          eventTypeData.maxBookingDays = some (JsValue.number 0)) → days = 60) := by
    rcases hdays with hnone | ⟨n, hn⟩
    · exact ⟨60, by simp [hnone, jsOr], by decide, by decide, fun _ => rfl⟩
    · by_cases h0 : n = 0
      · subst h0
        exact ⟨60, by simp [hn, jsOr, JsValue.truthy], by decide, by decide, fun _ => rfl⟩
      · rw [hn] at hed
        simp only [EventTypeSchema.maxBookingDays, toNumber, JsValue.truthy, JsNumber.ltInt,
          JsNumber.gtInt] at hed
        simp [h0] at hed
        refine ⟨n, by simp [hn, jsOr, JsValue.truthy, h0], ?_, ?_, ?_⟩
        · exact_mod_cast hed.1
        · exact_mod_cast hed.2
        · rintro (h | h)
          · rw [hn] at h
            cases h
          · rw [hn] at h
            simp only [Option.some.injEq, JsValue.number.injEq] at h
            exact absurd h h0
  obtain ⟨notice, hn1, hn2, hn3⟩ := hN
  obtain ⟨days, hd1, hd2, hd3, hd4⟩ := hD
  exact ⟨record, notice, days, hrecord, by rw [hrn, hn1], hn2, by rw [hrd, hd1], hd2, hd3,
    hn3, hd4⟩

/-- C28, at an input with `minNotice` 0 and `maxBookingDays` 90: the input is accepted and the
record has `minNotice` 60, the default, and `maxBookingDays` 90. -/
theorem createEventType_notice_and_days_witness :
    ((createEventType asciiToLowerCase "id-1" "2024-06-01T08:00:00.000Z"
        eventTypeDataIntro).map fun record => (record.minNotice, record.maxBookingDays))
      = some (JsValue.number 60, JsValue.number 90) ∧
    ∃ record notice days,
      createEventType asciiToLowerCase "id-1" "2024-06-01T08:00:00.000Z" eventTypeDataIntro
        = some record ∧
      record.minNotice = JsValue.number notice ∧ 0 ≤ notice ∧
      record.maxBookingDays = JsValue.number days ∧ 1 ≤ days ∧ days ≤ 365 ∧
      ((eventTypeDataIntro.minNotice = none ∨
          eventTypeDataIntro.minNotice = some (JsValue.number 0)) → notice = 60) ∧
      ((eventTypeDataIntro.maxBookingDays = none ∨
          eventTypeDataIntro.maxBookingDays = some (JsValue.number 0)) → days = 60) :=
  ⟨by decide,
    createEventType_notice_and_days (fun _ => JsNumber.nan) asciiToLowerCase "id-1"
      "2024-06-01T08:00:00.000Z" eventTypeDataIntro (by decide) (Or.inr ⟨0, rfl⟩)
      (Or.inr ⟨90, rfl⟩)⟩

/-- C29 (the code at the failing input): for the title `Team_Sync 2` and no slug,
`validateEventType` accepts the input and `createEventType` derives the slug `team_sync-2`,
which keeps the underscore; the slug validator rejects that text. -/
theorem createEventType_slug_keeps_underscore :
    (validateEventType (fun _ => JsNumber.nan) eventTypeDataUnderscore).isValid = true ∧
    ((createEventType asciiToLowerCase "id-1" "2024-06-01T08:00:00.000Z"
        eventTypeDataUnderscore).map fun record => record.slug)
      = some (JsValue.text "team_sync-2") ∧
    slugRegexTest "team_sync-2" = false ∧
    EventTypeSchema.slug (some (JsValue.text "team_sync-2"))
      = some "El slug solo puede contener letras minúsculas, números y guiones" := by
  decide

/-! ## Authorisation of reschedule and cancel -/

/-- The cancel token of a booking is never its reschedule token. -/
theorem cancel_token_ne_reschedule_token (bookingId : String) :
    "cancel-" ++ bookingId ≠ "reschedule-" ++ bookingId := by
  intro h
  have hdata := congrArg String.data h
  rw [String.data_append, String.data_append] at hdata
  have hc : ("cancel-" : String).data = ['c', 'a', 'n', 'c', 'e', 'l', '-'] := rfl
  have hr : ("reschedule-" : String).data
      = ['r', 'e', 's', 'c', 'h', 'e', 'd', 'u', 'l', 'e', '-'] := rfl
  rw [hc, hr] at hdata
  simp at hdata

/-- C30: for a stored booking, `rescheduleBooking` (given both times) answers 200 exactly
when the authenticated uid is `booking.userId`, or the authenticated e-mail is
`booking.inviteeEmail`, or the token is `reschedule-` followed by `booking.id`; otherwise it
answers 403 and leaves the collection as it was.  `cancelBooking` passes its authorisation
test, that is, answers something else than 403, exactly under the same conditions with
`cancel-` followed by `booking.id`; a refused request gets 403 and the collection is as it
was (a request that passes is answered 500, again with nothing written).  So for a request
without authenticated user the cancel token of the booking gets 403 from `rescheduleBooking`
and the reschedule token gets 403 from `cancelBooking`. -/
theorem reschedule_cancel_authorisation (now : String) (bookings : List BookingDoc)
    (bookingId : String) (user : Option AuthUser) (startTime endTime : String)
    (reason token : Option String) (booking : BookingDoc)
    (hget : getBookingDoc bookings bookingId = some booking)
    (hstart : startTime ≠ "") (hend : endTime ≠ "") :
    ((∃ updated,
        (rescheduleBooking now bookings bookingId user (some startTime) (some endTime)
          token).response = BookingResponse.ok updated) ↔
      ((∃ u, user = some u ∧ (u.uid = booking.userId ∨ u.email = some booking.inviteeEmail)) ∨
        token = some ("reschedule-" ++ booking.id))) ∧
    (¬ ((∃ u, user = some u ∧ (u.uid = booking.userId ∨ u.email = some booking.inviteeEmail)) ∨
        token = some ("reschedule-" ++ booking.id)) →
      rescheduleBooking now bookings bookingId user (some startTime) (some endTime) token
        = { response := BookingResponse.forbidden, bookings := bookings }) ∧
    ((cancelBooking now bookings bookingId user reason token).response
        ≠ BookingResponse.forbidden ↔
      ((∃ u, user = some u ∧ (u.uid = booking.userId ∨ u.email = some booking.inviteeEmail)) ∨
        token = some ("cancel-" ++ booking.id))) ∧
    (¬ ((∃ u, user = some u ∧ (u.uid = booking.userId ∨ u.email = some booking.inviteeEmail)) ∨
        token = some ("cancel-" ++ booking.id)) →
      cancelBooking now bookings bookingId user reason token
        = { response := BookingResponse.forbidden, bookings := bookings }) ∧
    (((∃ u, user = some u ∧ (u.uid = booking.userId ∨ u.email = some booking.inviteeEmail)) ∨
        token = some ("cancel-" ++ booking.id)) →
      cancelBooking now bookings bookingId user reason token
        = { response := BookingResponse.serverError, bookings := bookings }) ∧
    (user = none → token = some ("cancel-" ++ booking.id) →
      rescheduleBooking now bookings bookingId user (some startTime) (some endTime) token
        = { response := BookingResponse.forbidden, bookings := bookings }) ∧
    (user = none → token = some ("reschedule-" ++ booking.id) →
      cancelBooking now bookings bookingId user reason token
        = { response := BookingResponse.forbidden, bookings := bookings }) := by
  have htimes : (!truthyString (some startTime) || !truthyString (some endTime)) = false := by
    simp [truthyString, hstart, hend]
  have hbackR := getBookingDoc_update bookings bookingId
    (fun doc =>
      { doc with
        startTime := startTime
        endTime := endTime
        rescheduleCount := some (booking.rescheduleCount.getD 0 + 1)
        updatedAt := now })
    (fun _ => rfl) booking hget
  have hresched :
      ((∃ u, user = some u ∧ (u.uid = booking.userId ∨ u.email = some booking.inviteeEmail)) ∨
          token = some ("reschedule-" ++ booking.id) →
        ∃ updated,
          (rescheduleBooking now bookings bookingId user (some startTime) (some endTime)
            token).response = BookingResponse.ok updated) ∧
      (¬ ((∃ u, user = some u ∧
            (u.uid = booking.userId ∨ u.email = some booking.inviteeEmail)) ∨
          token = some ("reschedule-" ++ booking.id)) →
        rescheduleBooking now bookings bookingId user (some startTime) (some endTime) token
          = { response := BookingResponse.forbidden, bookings := bookings }) := by
    unfold rescheduleBooking
    simp only [htimes, Bool.false_eq_true, if_false, hget, Option.getD_some]
    constructor
    · rintro (⟨u, hu, howner | hinvitee⟩ | htoken)
      · subst hu
        simp [howner, hbackR]
      · subst hu
        simp [hinvitee, hbackR]
      · subst htoken
        simp [hbackR]
    · intro hno
      have htoken : token ≠ some ("reschedule-" ++ booking.id) := fun h => hno (Or.inr h)
      cases user with
      | none => simp [htoken]
      | some u =>
        have h1 : u.uid ≠ booking.userId := fun h => hno (Or.inl ⟨u, rfl, Or.inl h⟩)
        have h2 : u.email ≠ some booking.inviteeEmail :=
          fun h => hno (Or.inl ⟨u, rfl, Or.inr h⟩)
        simp [htoken, h1, h2]
  have hcancel :
      ((∃ u, user = some u ∧ (u.uid = booking.userId ∨ u.email = some booking.inviteeEmail)) ∨
          token = some ("cancel-" ++ booking.id) →
        cancelBooking now bookings bookingId user reason token
          = { response := BookingResponse.serverError, bookings := bookings }) ∧
      (¬ ((∃ u, user = some u ∧
            (u.uid = booking.userId ∨ u.email = some booking.inviteeEmail)) ∨
          token = some ("cancel-" ++ booking.id)) →
        cancelBooking now bookings bookingId user reason token
          = { response := BookingResponse.forbidden, bookings := bookings }) := by
    unfold cancelBooking
    simp only [hget]
    constructor
    · rintro (⟨u, hu, howner | hinvitee⟩ | htoken)
      · subst hu
        simp [howner, bookingController.BOOKING_STATUS]
      · subst hu
        simp [hinvitee, bookingController.BOOKING_STATUS]
      · subst htoken
        simp [bookingController.BOOKING_STATUS]
    · intro hno
      have htoken : token ≠ some ("cancel-" ++ booking.id) := fun h => hno (Or.inr h)
      cases user with
      | none => simp [htoken]
      | some u =>
        have h1 : u.uid ≠ booking.userId := fun h => hno (Or.inl ⟨u, rfl, Or.inl h⟩)
        have h2 : u.email ≠ some booking.inviteeEmail :=
          fun h => hno (Or.inl ⟨u, rfl, Or.inr h⟩)
        simp [htoken, h1, h2]
  refine ⟨⟨?_, hresched.1⟩, hresched.2, ⟨?_, ?_⟩, hcancel.2, hcancel.1, ?_, ?_⟩
  · rintro ⟨updated, hok⟩
    by_contra hno
    rw [hresched.2 hno] at hok
    cases hok
  · intro hne
    by_contra hno
    rw [hcancel.2 hno] at hne
    exact hne rfl
  · intro hauth h
    rw [hcancel.1 hauth] at h
    cases h
  · intro huser htoken
    apply hresched.2
    rintro (⟨u, hu, -⟩ | h)
    · rw [huser] at hu
      cases hu
    · rw [htoken] at h
      simp only [Option.some.injEq] at h
      exact cancel_token_ne_reschedule_token booking.id h
  · intro huser htoken
    apply hcancel.2
    rintro (⟨u, hu, -⟩ | h)
    · rw [huser] at hu
      cases hu
    · rw [htoken] at h
      simp only [Option.some.injEq] at h
      exact cancel_token_ne_reschedule_token booking.id h.symm

/-- C30, at booking `a` and a request without authenticated user: with the token `cancel-a`,
`rescheduleBooking` answers 403 and writes nothing while `cancelBooking` does not answer
403; with the token `reschedule-a`, `cancelBooking` answers 403 and writes nothing while
`rescheduleBooking` answers 200. -/
theorem reschedule_cancel_authorisation_witness :
    rescheduleBooking "2024-06-01T08:00:00.000Z" [bookingDocA, bookingDocB] "a" none
        (some "2024-06-03T15:00:00Z") (some "2024-06-03T15:30:00Z") (some "cancel-a")
      = { response := BookingResponse.forbidden, bookings := [bookingDocA, bookingDocB] } ∧
    (cancelBooking "2024-06-01T08:00:00.000Z" [bookingDocA, bookingDocB] "a" none none
        (some "cancel-a")).response ≠ BookingResponse.forbidden ∧
    cancelBooking "2024-06-01T08:00:00.000Z" [bookingDocA, bookingDocB] "a" none none
        (some "reschedule-a")
      = { response := BookingResponse.forbidden, bookings := [bookingDocA, bookingDocB] } ∧
    ∃ updated,
      (rescheduleBooking "2024-06-01T08:00:00.000Z" [bookingDocA, bookingDocB] "a" none
        (some "2024-06-03T15:00:00Z") (some "2024-06-03T15:30:00Z")
        (some "reschedule-a")).response = BookingResponse.ok updated :=
  ⟨(reschedule_cancel_authorisation "2024-06-01T08:00:00.000Z" [bookingDocA, bookingDocB] "a"
      none "2024-06-03T15:00:00Z" "2024-06-03T15:30:00Z" none (some "cancel-a") bookingDocA
      (by decide) (by decide) (by decide)).2.2.2.2.2.1 rfl rfl,
    (reschedule_cancel_authorisation "2024-06-01T08:00:00.000Z" [bookingDocA, bookingDocB] "a"
      none "2024-06-03T15:00:00Z" "2024-06-03T15:30:00Z" none (some "cancel-a") bookingDocA
      (by decide) (by decide) (by decide)).2.2.1.2 (Or.inr rfl),
    (reschedule_cancel_authorisation "2024-06-01T08:00:00.000Z" [bookingDocA, bookingDocB] "a"
      none "2024-06-03T15:00:00Z" "2024-06-03T15:30:00Z" none (some "reschedule-a") bookingDocA
      (by decide) (by decide) (by decide)).2.2.2.2.2.2 rfl rfl,
    (reschedule_cancel_authorisation "2024-06-01T08:00:00.000Z" [bookingDocA, bookingDocB] "a"
      none "2024-06-03T15:00:00Z" "2024-06-03T15:30:00Z" none (some "reschedule-a") bookingDocA
      (by decide) (by decide) (by decide)).1.2 (Or.inr rfl)⟩

end TribeCalendar
